import Mathlib

/-!
# Performance test script of the AI novel writer server

A shallow embedding of `AINovalServer/performance_test_script.js`.

* Numbers are natural numbers: `formatDuration` is modelled on the non-negative integers,
  where the floating-point operations of the script (`<`, `/` followed by `Math.floor`, `%`,
  conversion to text) are exact for every safe integer.
* The script is a sequence of awaited calls, so it is modelled as a state-passing
  computation that may throw (`Script`).  The state holds the two module variables
  `authToken` and `csrfToken` and the trace of observable events: every `console.log`
  and every axios call, in the order in which they happen.
* The remote service is a parameter: a function giving, for each request and the list of
  requests made before it, whether the promise resolves or rejects and with what.
* Colouring by chalk is kept as a tag on each printed line.
* A response body is the record of the fields the script reads, or null; fields whose
  value is only printed are kept as the text JavaScript prints for them.

The file has the script first, then a closed form of its runs and the vocabulary of the
specification, then the lemmas, and last one theorem for each claim.
-/

namespace PerfScript

/-! ## The script -/

/-- Source lines 41-46. -/
def formatDuration (ms : Nat) : String :=
  if ms < 1000 then toString ms ++ "ms"
  else
    let seconds := ms / 1000
    let remainingMs := ms % 1000
    toString seconds ++ "." ++ toString remainingMs ++ "s"

/-- Settings of the script (source lines 19-34). -/
structure Config where
  baseUrl : String
  dataCount : Nat
  queryUsers : Nat
  createUsers : Nat
  queryRequests : Nat
  createRequests : Nat
  username : String
  password : String

/-- The constant `config` of the script. -/
def config : Config where
  baseUrl := "http://localhost:8088/api"
  dataCount := 20
  queryUsers := 50
  createUsers := 20
  queryRequests := 10
  createRequests := 5
  username := "admin"
  password := "admin123"

/-- Colours applied through chalk. -/
inductive Color where
  | blue | cyan | green | yellow | red
deriving DecidableEq

/-- One console.log call: the colour and the text handed to chalk. -/
structure Line where
  color : Color
  text : String
deriving DecidableEq

inductive Method where
  | GET | POST | DELETE
deriving DecidableEq

/-- Header objects, as key/value pairs in insertion order. -/
abbrev Headers := List (String × String)

/-- Data argument of an axios call. -/
inductive Body where
  | absent
  | emptyObject
  | credentials (username password : String)
deriving DecidableEq

structure Request where
  method : Method
  url : String
  body : Body
  headers : Headers
deriving DecidableEq

/-- Fields the script reads from a response body; `none` is an absent field. -/
structure Payload where
  token : Option String := none
  success : Bool := false
  message : Option String := none
  totalRequests : Option Nat := none
  successfulRequests : Option String := none
  totalTimeMs : Option Nat := none
  requestsPerSecond : Option String := none
  novelCount : Option Nat := none
  sceneCount : Option String := none
  characterCount : Option String := none
  availableProcessors : Option String := none
  maxMemoryMB : Option String := none
  usedMemoryMB : Option String := none
  freeMemoryMB : Option String := none
  javaVersion : Option String := none
  osName : Option String := none
  osVersion : Option String := none

/-- A resolved axios response; `data = none` is a null body. -/
structure Response where
  data : Option Payload
  headers : Option Headers

/-- The `response` property of an axios error; `data` holds the JSON text of the body. -/
structure ErrorResponse where
  status : Nat
  data : String
deriving DecidableEq

structure JsError where
  message : String
  response : Option ErrorResponse
deriving DecidableEq

inductive Outcome where
  | resolved (r : Response)
  | rejected (e : JsError)

/-- The remote service: the answer to a request, given the requests made before it. -/
abbrev Service := List Request → Request → Outcome

inductive Event where
  | out (l : Line)
  | call (r : Request)
deriving DecidableEq

/-- Module-level variables (source lines 37-38) and the observable history of the process. -/
structure World where
  authToken : String
  csrfToken : String
  trace : List Event
deriving DecidableEq

/-- State of the process when the script starts. -/
def World.initial : World := { authToken := "", csrfToken := "", trace := [] }

def requestsOf : List Event → List Request
  | [] => []
  | .call r :: es => r :: requestsOf es
  | .out _ :: es => requestsOf es

def outputOf : List Event → List Line
  | [] => []
  | .out l :: es => l :: outputOf es
  | .call _ :: es => outputOf es

def World.requests (w : World) : List Request := requestsOf w.trace

def World.output (w : World) : List Line := outputOf w.trace

/-- A computation that may throw, over the process state. -/
def Script (α : Type) : Type := World → Except JsError α × World

def Script.pure {α : Type} (a : α) : Script α := fun w => (.ok a, w)

def Script.bind {α β : Type} (m : Script α) (f : α → Script β) : Script β := fun w =>
  match m w with
  | (.ok a, w1) => f a w1
  | (.error e, w1) => (.error e, w1)

instance : Monad Script where
  pure := Script.pure
  bind := Script.bind

def Script.throw {α : Type} (e : JsError) : Script α := fun w => (.error e, w)

def Script.tryCatch {α : Type} (body : Script α) (handler : JsError → Script α) : Script α :=
  fun w =>
    match body w with
    | (.ok a, w1) => (.ok a, w1)
    | (.error e, w1) => handler e w1

def getWorld : Script World := fun w => (.ok w, w)

def setAuthToken (t : String) : Script Unit := fun w => (.ok (), { w with authToken := t })

def setCsrfToken (t : String) : Script Unit := fun w => (.ok (), { w with csrfToken := t })

/-- Effect of console.log. -/
def log (color : Color) (text : String) : Script Unit := fun w =>
  (.ok (), { w with trace := w.trace ++ [.out ⟨color, text⟩] })

/-- Effect of awaiting an axios call: the request is recorded, then the promise settles. -/
def axios (svc : Service) (req : Request) : Script Response := fun w =>
  let w1 := { w with trace := w.trace ++ [.call req] }
  match svc w.requests req with
  | .resolved r => (.ok r, w1)
  | .rejected e => (.error e, w1)

/-- Template-literal rendering of a possibly absent field. -/
def jsShow : Option String → String
  | some s => s
  | none => "undefined"

/-- Template-literal rendering of a possibly absent numeric field. -/
def jsShowNat : Option Nat → String
  | some n => toString n
  | none => "undefined"

/-- Truthiness of a numeric field: present and not zero. -/
def truthyNat : Option Nat → Bool
  | some n => n != 0
  | none => false

/-- A string field when it is truthy: present and not empty. -/
def truthyValue : Option String → Option String
  | some s => if s = "" then none else some s
  | none => none

/-- Error raised by reading a property of null. -/
def nullPropertyError (field : String) : JsError :=
  { message := "Cannot read properties of null (reading '" ++ field ++ "')", response := none }

/-- The call `formatDuration(result.totalTimeMs)`: an absent field makes every number in
the function NaN. -/
def formatDurationField : Option Nat → String
  | some ms => formatDuration ms
  | none => "NaN.NaNs"

/-- Source lines 49-72. -/
def printResult (title : String) (result : Option Payload) : Script Unit := do
  log .cyan "\n==================================="
  log .cyan title
  log .cyan "==================================="
  match result with
  | none => Script.throw (nullPropertyError "success")
  | some result =>
    if result.success then
      log .green ("✓ " ++ jsShow result.message)
      if truthyNat result.totalRequests then
        log .yellow ("总请求数: " ++ jsShowNat result.totalRequests)
        log .yellow ("成功请求数: " ++ jsShow result.successfulRequests)
        log .yellow ("总耗时: " ++ formatDurationField result.totalTimeMs)
        log .yellow ("每秒请求数: " ++ jsShow result.requestsPerSecond ++ "/秒")
      if truthyNat result.novelCount then
        log .yellow ("小说数量: " ++ jsShowNat result.novelCount)
        log .yellow ("场景数量: " ++ jsShow result.sceneCount)
        log .yellow ("角色数量: " ++ jsShow result.characterCount)
    else
      log .red ("✗ " ++ jsShow result.message)

/-- The login call of source lines 84-90. -/
def loginRequest : Request :=
  { method := .POST, url := config.baseUrl ++ "/auth/login",
    body := .credentials config.username config.password, headers := [] }

/-- The anti-forgery call of source lines 97-104. -/
def csrfRequest (authToken : String) : Request :=
  { method := .GET, url := config.baseUrl ++ "/auth/csrf", body := .absent,
    headers := [("Authorization", "Bearer " ++ authToken)] }

/-- The try block of `authenticate` (source lines 83-117). -/
def authenticateBody (svc : Service) : Script Bool := do
  log .blue "正在获取认证令牌..."
  let loginResponse ← axios svc loginRequest
  match truthyValue (loginResponse.data.bind (fun d => d.token)) with
  | some token =>
    setAuthToken token
    log .green "✓ 成功获取JWT令牌"
    let w ← getWorld
    let csrfResponse ← axios svc (csrfRequest w.authToken)
    match truthyValue (csrfResponse.headers.bind (fun h => h.lookup "x-csrf-token")) with
    | some t =>
      setCsrfToken t
      log .green "✓ 成功获取CSRF令牌"
    | none =>
      log .yellow "! 未能获取CSRF令牌，将尝试继续测试"
    return true
  | none =>
    log .red "✗ 认证失败：未能获取令牌"
    return false

/-- The catch block of `authenticate` (source lines 118-125). -/
def authenticateHandler (error : JsError) : Script Bool := do
  log .red ("✗ 认证过程中出错: " ++ error.message)
  match error.response with
  | some response =>
    log .red ("状态码: " ++ toString response.status)
    log .red ("错误信息: " ++ response.data)
  | none => pure ()
  return false

/-- Source lines 75-126. -/
def authenticate (isTestMode : Bool) (svc : Service) : Script Bool :=
  if isTestMode then do
    log .blue "测试模式：跳过认证步骤"
    return true
  else
    Script.tryCatch (authenticateBody svc) authenticateHandler

/-- Source lines 129-150, with the module variables it reads passed as arguments. -/
def createAuthHeaders (isTestMode : Bool) (authToken csrfToken : String)
    (needCsrf : Bool := false) : Headers :=
  if isTestMode then
    [("Content-Type", "application/json")]
  else
    let headers : Headers := [("Content-Type", "application/json")]
    let headers := if authToken ≠ "" then headers ++ [("Authorization", "Bearer " ++ authToken)]
      else headers
    let headers := if needCsrf && csrfToken ≠ "" then headers ++ [("X-CSRF-TOKEN", csrfToken)]
      else headers
    headers

/-- A call of `createAuthHeaders` inside the script: it reads the current module variables. -/
def readAuthHeaders (isTestMode : Bool) (needCsrf : Bool := false) : Script Headers := fun w =>
  (.ok (createAuthHeaders isTestMode w.authToken w.csrfToken needCsrf), w)

def clearDataUrl : String := config.baseUrl ++ "/performance-test/clear-data"

def generateDataUrl : String :=
  config.baseUrl ++ "/performance-test/generate-data?count=" ++ toString config.dataCount

def statsUrl : String := config.baseUrl ++ "/performance-test/stats"

def novelQueryUrl : String :=
  config.baseUrl ++ "/performance-test/novel-query-test?concurrentUsers="
    ++ toString config.queryUsers ++ "&requestsPerUser=" ++ toString config.queryRequests

def sceneQueryUrl : String :=
  config.baseUrl ++ "/performance-test/scene-query-test?concurrentUsers="
    ++ toString config.queryUsers ++ "&requestsPerUser=" ++ toString config.queryRequests

def novelCreateUrl : String :=
  config.baseUrl ++ "/performance-test/novel-create-test?concurrentUsers="
    ++ toString config.createUsers ++ "&requestsPerUser=" ++ toString config.createRequests

def serverStatusUrl : String := config.baseUrl ++ "/performance-test/server-status"

/-- Source lines 235-243: the server status block. -/
def printServerStatus (data : Option Payload) : Script Unit := do
  log .cyan "\n==================================="
  log .cyan "服务器状态"
  log .cyan "==================================="
  match data with
  | none => Script.throw (nullPropertyError "availableProcessors")
  | some data =>
    log .yellow ("处理器数量: " ++ jsShow data.availableProcessors)
    log .yellow ("最大内存: " ++ jsShow data.maxMemoryMB ++ "MB")
    log .yellow ("已用内存: " ++ jsShow data.usedMemoryMB ++ "MB")
    log .yellow ("空闲内存: " ++ jsShow data.freeMemoryMB ++ "MB")
    log .yellow ("Java版本: " ++ jsShow data.javaVersion)
    log .yellow ("操作系统: " ++ jsShow data.osName ++ " " ++ jsShow data.osVersion)

/-- Source lines 165-245: the seven performance-test calls and the final banner. -/
def performanceTests (isTestMode : Bool) (svc : Service) : Script Unit := do
  log .blue "\n清除现有测试数据..."
  let clearResult ← axios svc
    { method := .DELETE, url := clearDataUrl, body := .absent,
      headers := ← readAuthHeaders isTestMode true }
  printResult "清除测试数据" clearResult.data
  log .blue "\n生成测试数据..."
  let generateResult ← axios svc
    { method := .POST, url := generateDataUrl, body := .emptyObject,
      headers := ← readAuthHeaders isTestMode true }
  printResult "生成测试数据" generateResult.data
  log .blue "\n获取数据库统计..."
  let statsResult ← axios svc
    { method := .GET, url := statsUrl, body := .absent,
      headers := ← readAuthHeaders isTestMode }
  printResult "数据库统计" statsResult.data
  log .blue "\n执行小说查询性能测试..."
  let novelQueryResult ← axios svc
    { method := .GET, url := novelQueryUrl, body := .absent,
      headers := ← readAuthHeaders isTestMode }
  printResult "小说查询性能测试" novelQueryResult.data
  log .blue "\n执行场景查询性能测试..."
  let sceneQueryResult ← axios svc
    { method := .GET, url := sceneQueryUrl, body := .absent,
      headers := ← readAuthHeaders isTestMode }
  printResult "场景查询性能测试" sceneQueryResult.data
  log .blue "\n执行小说创建性能测试..."
  let novelCreateResult ← axios svc
    { method := .POST, url := novelCreateUrl, body := .emptyObject,
      headers := ← readAuthHeaders isTestMode true }
  printResult "小说创建性能测试" novelCreateResult.data
  log .blue "\n获取服务器状态..."
  let serverStatusResult ← axios svc
    { method := .GET, url := serverStatusUrl, body := .absent,
      headers := ← readAuthHeaders isTestMode }
  printServerStatus serverStatusResult.data
  log .green "\n✓ 所有测试完成!"

/-- The try block of `runTests` (source lines 155-245). -/
def runTestsBody (isTestMode : Bool) (svc : Service) : Script Unit := do
  log .blue "开始AI小说助手系统性能测试..."
  log .blue ("运行模式: " ++ if isTestMode then "测试模式（无认证）" else "标准模式（需认证）")
  let authenticated ← authenticate isTestMode svc
  if !authenticated && !isTestMode then
    log .red "认证失败，无法继续测试"
  else
    performanceTests isTestMode svc

/-- The catch block of `runTests` (source lines 247-255). -/
def runTestsHandler (error : JsError) : Script Unit := do
  log .red "\n✗ 测试过程中出错:"
  match error.response with
  | some response =>
    log .red ("状态码: " ++ toString response.status)
    log .red ("错误信息: " ++ response.data)
  | none =>
    log .red error.message

/-- Source lines 153-256. -/
def runTests (isTestMode : Bool) (svc : Service) : Script Unit :=
  Script.tryCatch (runTestsBody isTestMode svc) runTestsHandler

/-- The world in which a run of the script ends. -/
def run (isTestMode : Bool) (svc : Service) (w : World) : World := (runTests isTestMode svc w).2

/-! ## Closed form of a run

The events of a run written as plain functions of the service: what each block prints, the
seven steps as a list, and the trace they produce.  The section "The script and its closed
form agree" proves that `runTests` above computes exactly this (`run_eq`); the claims are
stated on `runTests` and proved through it. -/

/-- Lines printed, and the error thrown after them if any. -/
abbrev Printed := List Line × Option JsError

/-- Print the lines, then throw the error if there is one. -/
def emit (p : Printed) : Script Unit := fun w =>
  (match p.2 with
    | none => .ok ()
    | some e => .error e,
   { w with trace := w.trace ++ p.1.map .out })

/-- The three lines that open a block. -/
def blockHead (title : String) : List Line :=
  [⟨.cyan, "\n==================================="⟩, ⟨.cyan, title⟩,
   ⟨.cyan, "==================================="⟩]

/-- What `printResult` prints for a body, and the error it throws on a null body. -/
def resultLines (title : String) : Option Payload → Printed
  | none => (blockHead title, some (nullPropertyError "success"))
  | some result =>
    (blockHead title ++
      (if result.success then
        [⟨.green, "✓ " ++ jsShow result.message⟩] ++
        (if truthyNat result.totalRequests then
          [⟨.yellow, "总请求数: " ++ jsShowNat result.totalRequests⟩,
           ⟨.yellow, "成功请求数: " ++ jsShow result.successfulRequests⟩,
           ⟨.yellow, "总耗时: " ++ formatDurationField result.totalTimeMs⟩,
           ⟨.yellow, "每秒请求数: " ++ jsShow result.requestsPerSecond ++ "/秒"⟩]
        else []) ++
        (if truthyNat result.novelCount then
          [⟨.yellow, "小说数量: " ++ jsShowNat result.novelCount⟩,
           ⟨.yellow, "场景数量: " ++ jsShow result.sceneCount⟩,
           ⟨.yellow, "角色数量: " ++ jsShow result.characterCount⟩]
        else [])
      else [⟨.red, "✗ " ++ jsShow result.message⟩]), none)

/-- What the server status block prints for a body, and the error it throws on a null
body. -/
def statusLines : Option Payload → Printed
  | none => (blockHead "服务器状态", some (nullPropertyError "availableProcessors"))
  | some data =>
    (blockHead "服务器状态" ++
      [⟨.yellow, "处理器数量: " ++ jsShow data.availableProcessors⟩,
       ⟨.yellow, "最大内存: " ++ jsShow data.maxMemoryMB ++ "MB"⟩,
       ⟨.yellow, "已用内存: " ++ jsShow data.usedMemoryMB ++ "MB"⟩,
       ⟨.yellow, "空闲内存: " ++ jsShow data.freeMemoryMB ++ "MB"⟩,
       ⟨.yellow, "Java版本: " ++ jsShow data.javaVersion⟩,
       ⟨.yellow, "操作系统: " ++ jsShow data.osName ++ " " ++ jsShow data.osVersion⟩], none)

/-- One performance-test step: the line announcing it, its request, and what is printed
for the response body. -/
structure Step where
  intro : String
  request : Request
  render : Option Payload → Printed

/-- The seven steps of `performanceTests`, for given values of the module variables. -/
def perfSteps (isTestMode : Bool) (authToken csrfToken : String) : List Step :=
  [ { intro := "\n清除现有测试数据...",
      request := { method := .DELETE, url := clearDataUrl, body := .absent,
                   headers := createAuthHeaders isTestMode authToken csrfToken true },
      render := resultLines "清除测试数据" },
    { intro := "\n生成测试数据...",
      request := { method := .POST, url := generateDataUrl, body := .emptyObject,
                   headers := createAuthHeaders isTestMode authToken csrfToken true },
      render := resultLines "生成测试数据" },
    { intro := "\n获取数据库统计...",
      request := { method := .GET, url := statsUrl, body := .absent,
                   headers := createAuthHeaders isTestMode authToken csrfToken },
      render := resultLines "数据库统计" },
    { intro := "\n执行小说查询性能测试...",
      request := { method := .GET, url := novelQueryUrl, body := .absent,
                   headers := createAuthHeaders isTestMode authToken csrfToken },
      render := resultLines "小说查询性能测试" },
    { intro := "\n执行场景查询性能测试...",
      request := { method := .GET, url := sceneQueryUrl, body := .absent,
                   headers := createAuthHeaders isTestMode authToken csrfToken },
      render := resultLines "场景查询性能测试" },
    { intro := "\n执行小说创建性能测试...",
      request := { method := .POST, url := novelCreateUrl, body := .emptyObject,
                   headers := createAuthHeaders isTestMode authToken csrfToken true },
      render := resultLines "小说创建性能测试" },
    { intro := "\n获取服务器状态...",
      request := { method := .GET, url := serverStatusUrl, body := .absent,
                   headers := createAuthHeaders isTestMode authToken csrfToken },
      render := statusLines } ]

/-- The last line of a run in which every step went through (source line 245). -/
def banner : Line := ⟨.green, "\n✓ 所有测试完成!"⟩

/-- Events of a sequence of steps and the error that ends it, if any; `hist` is the list of
requests made before. -/
def stepsRun (svc : Service) : List Request → List Step → List Event × Option JsError
  | _, [] => ([.out banner], none)
  | hist, s :: ss =>
    match svc hist s.request with
    | .rejected e => ([.out ⟨.blue, s.intro⟩, .call s.request], some e)
    | .resolved r =>
      match (s.render r.data).2 with
      | some e => (.out ⟨.blue, s.intro⟩ :: .call s.request :: (s.render r.data).1.map .out, some e)
      | none =>
        (.out ⟨.blue, s.intro⟩ :: .call s.request :: (s.render r.data).1.map .out
            ++ (stepsRun svc (hist ++ [s.request]) ss).1,
          (stepsRun svc (hist ++ [s.request]) ss).2)

/-- The result of a script that ends with the given error, if any. -/
def toExcept : Option JsError → Except JsError Unit
  | none => .ok ()
  | some e => .error e

/-- The steps as a script. -/
def runSteps (svc : Service) : List Step → Script Unit
  | [] => log banner.color banner.text
  | s :: ss => do
    log .blue s.intro
    let r ← axios svc s.request
    emit (s.render r.data)
    runSteps svc ss

/-- What the catch block of `runTests` prints for an error. -/
def handlerLines (e : JsError) : List Line :=
  ⟨.red, "\n✗ 测试过程中出错:"⟩ ::
    match e.response with
    | some response =>
      [⟨.red, "状态码: " ++ toString response.status⟩, ⟨.red, "错误信息: " ++ response.data⟩]
    | none => [⟨.red, e.message⟩]

/-- Events of a sequence of steps followed by what the catch block of `runTests` prints. -/
def stepsTrace (svc : Service) (hist : List Request) (steps : List Step) : List Event :=
  (stepsRun svc hist steps).1 ++
    match (stepsRun svc hist steps).2 with
    | none => []
    | some e => (handlerLines e).map .out

/-- What the catch block of `authenticate` prints for an error. -/
def authErrorLines (e : JsError) : List Line :=
  ⟨.red, "✗ 认证过程中出错: " ++ e.message⟩ ::
    match e.response with
    | some response =>
      [⟨.red, "状态码: " ++ toString response.status⟩, ⟨.red, "错误信息: " ++ response.data⟩]
    | none => []

/-- Outcome of `authenticate`: its return value, its events, and the module variables
after it. -/
structure AuthRun where
  ok : Bool
  events : List Event
  authToken : String
  csrfToken : String

def authRun (isTestMode : Bool) (svc : Service) (hist : List Request)
    (authToken csrfToken : String) : AuthRun :=
  if isTestMode then
    ⟨true, [.out ⟨.blue, "测试模式：跳过认证步骤"⟩], authToken, csrfToken⟩
  else
    match svc hist loginRequest with
    | .rejected e =>
      ⟨false, .out ⟨.blue, "正在获取认证令牌..."⟩ :: .call loginRequest ::
        (authErrorLines e).map .out, authToken, csrfToken⟩
    | .resolved r =>
      match truthyValue (r.data.bind (fun d => d.token)) with
      | none =>
        ⟨false, [.out ⟨.blue, "正在获取认证令牌..."⟩, .call loginRequest,
          .out ⟨.red, "✗ 认证失败：未能获取令牌"⟩], authToken, csrfToken⟩
      | some token =>
        match svc (hist ++ [loginRequest]) (csrfRequest token) with
        | .rejected e =>
          ⟨false, .out ⟨.blue, "正在获取认证令牌..."⟩ :: .call loginRequest ::
            .out ⟨.green, "✓ 成功获取JWT令牌"⟩ :: .call (csrfRequest token) ::
            (authErrorLines e).map .out, token, csrfToken⟩
        | .resolved r2 =>
          match truthyValue (r2.headers.bind (fun h => h.lookup "x-csrf-token")) with
          | some t =>
            ⟨true, [.out ⟨.blue, "正在获取认证令牌..."⟩, .call loginRequest,
              .out ⟨.green, "✓ 成功获取JWT令牌"⟩, .call (csrfRequest token),
              .out ⟨.green, "✓ 成功获取CSRF令牌"⟩], token, t⟩
          | none =>
            ⟨true, [.out ⟨.blue, "正在获取认证令牌..."⟩, .call loginRequest,
              .out ⟨.green, "✓ 成功获取JWT令牌"⟩, .call (csrfRequest token),
              .out ⟨.yellow, "! 未能获取CSRF令牌，将尝试继续测试"⟩], token, csrfToken⟩

/-- The second line of a run (source line 156). -/
def modeLine (isTestMode : Bool) : Line :=
  ⟨.blue, "运行模式: " ++ if isTestMode then "测试模式（无认证）" else "标准模式（需认证）"⟩

/-- Events of a whole run of `runTests`, from the requests made before it and the module
variables. -/
def runTrace (isTestMode : Bool) (svc : Service) (hist : List Request)
    (authToken csrfToken : String) : List Event :=
  .out ⟨.blue, "开始AI小说助手系统性能测试..."⟩ :: .out (modeLine isTestMode) ::
    (authRun isTestMode svc hist authToken csrfToken).events ++
      if (authRun isTestMode svc hist authToken csrfToken).ok || isTestMode then
        stepsTrace svc
          (hist ++ requestsOf (authRun isTestMode svc hist authToken csrfToken).events)
          (perfSteps isTestMode
            (authRun isTestMode svc hist authToken csrfToken).authToken
            (authRun isTestMode svc hist authToken csrfToken).csrfToken)
      else [.out ⟨.red, "认证失败，无法继续测试"⟩]

/-! ## Vocabulary of the specification -/

/-- Method and URL of a request. -/
def endpoint (r : Request) : Method × String := (r.method, r.url)

/-- The seven performance-test endpoints, in the order of the script. -/
def performanceEndpoints : List (Method × String) :=
  [(.DELETE, clearDataUrl), (.POST, generateDataUrl), (.GET, statsUrl), (.GET, novelQueryUrl),
   (.GET, sceneQueryUrl), (.POST, novelCreateUrl), (.GET, serverStatusUrl)]

/-- The three state-changing performance-test endpoints. -/
def writeEndpoints : List (Method × String) :=
  [(.DELETE, clearDataUrl), (.POST, generateDataUrl), (.POST, novelCreateUrl)]

/-- The nine endpoints of section 6 of the specification, in its order. -/
def allEndpoints : List (Method × String) :=
  (.POST, config.baseUrl ++ "/auth/login") :: (.GET, config.baseUrl ++ "/auth/csrf") ::
    performanceEndpoints

/-- The seven performance-test requests for given values of the module variables. -/
def perfRequests (isTestMode : Bool) (authToken csrfToken : String) : List Request :=
  (perfSteps isTestMode authToken csrfToken).map (fun s => s.request)

/-- The world in which the call of `authenticate` made by a run ends. -/
def afterAuth (isTestMode : Bool) (svc : Service) : World :=
  (authenticate isTestMode svc World.initial).2

/-- The requests a run makes after its call of `authenticate`. -/
def perfIssued (isTestMode : Bool) (svc : Service) : List Request :=
  (run isTestMode svc World.initial).requests.drop (afterAuth isTestMode svc).requests.length

/-- The call number `k` (from 0) of the list `P`, made after the requests `base` and the
calls before it, resolves. -/
def CallResolves (svc : Service) (base P : List Request) (k : Nat) : Prop :=
  ∃ req r, P[k]? = some req ∧ svc (base ++ P.take k) req = .resolved r

/-- The call number `k` resolves with a body that is not null. -/
def CallCompletes (svc : Service) (base P : List Request) (k : Nat) : Prop :=
  ∃ req r p, P[k]? = some req ∧ svc (base ++ P.take k) req = .resolved r ∧ r.data = some p

/-- Authentication fails: the login call throws, or the login response has no token, or the
anti-forgery call throws. -/
def AuthFails (svc : Service) : Prop :=
  (∃ e, svc [] loginRequest = .rejected e) ∨
  (∃ r, svc [] loginRequest = .resolved r ∧
    truthyValue (r.data.bind (fun d => d.token)) = none) ∨
  (∃ r t e, svc [] loginRequest = .resolved r ∧
    truthyValue (r.data.bind (fun d => d.token)) = some t ∧
    svc [loginRequest] (csrfRequest t) = .rejected e)

/-- Every call resolves with a body that is not null, and login returns a token. -/
def AllSucceed (svc : Service) : Prop :=
  ∀ hist req, ∃ r p, svc hist req = .resolved r ∧ r.data = some p ∧
    (req = loginRequest → ∃ t, truthyValue p.token = some t)

/-- First line of a result block. -/
def blockOpener : Line := ⟨.cyan, "\n==================================="⟩

/-- Value of a list of decimal digit characters, most significant first. -/
def digitsValue (cs : List Char) : Nat :=
  cs.foldl (fun acc ch => acc * 10 + (ch.toNat - 48)) 0

/-- The text of a duration without its final unit character. -/
def textBeforeUnit (s : String) : String := ⟨s.data.dropLast⟩

/-- A decimal number: `numerator / 10 ^ decimals`. -/
structure Decimal where
  numerator : Nat
  decimals : Nat
deriving DecidableEq

/-- The rational number a decimal denotes. -/
def Decimal.value (d : Decimal) : ℚ := (d.numerator : ℚ) / (10 : ℚ) ^ d.decimals

/-- Reading of a text as a decimal number: digits for the whole part, a point, then the
digits of the fractional part, the first of them counting tenths. -/
def readDecimal (s : String) : Option Decimal :=
  match s.data.span (fun ch => ch != '.') with
  | (whole, '.' :: frac) =>
    if whole ≠ [] ∧ frac ≠ [] ∧ (whole ++ frac).all Char.isDigit then
      some ⟨digitsValue whole * 10 ^ frac.length + digitsValue frac, frac.length⟩
    else none
  | _ => none

/-- What the proofs need to know of the printing of a step: it throws exactly on a null
body, never prints the final banner, and prints one block for a body. -/
structure Step.Regular (s : Step) : Prop where
  null_throws : ∃ e, (s.render none).2 = some e
  body_prints : ∀ p, (s.render (some p)).2 = none
  no_banner : ∀ d, banner ∉ (s.render d).1
  one_block : ∀ p, (s.render (some p)).1.count blockOpener = 1

/-! ## Services used as concrete inputs -/

/-- A service where every call resolves with a full body and both tokens. -/
def okService : Service := fun _ _ =>
  .resolved
    { data := some { token := some "jwt", success := true, message := some "ok",
                     totalRequests := some 500, totalTimeMs := some 1005 },
      headers := some [("x-csrf-token", "csrf")] }

/-- A service that cannot be reached: every call rejects without a response. -/
def unreachableService : Service := fun _ _ =>
  .rejected { message := "connect ECONNREFUSED 127.0.0.1:8088", response := none }

/-- A service where every call resolves, the novel-create-test call with a null body. -/
def nullCreateService : Service := fun _ req =>
  if req.url = novelCreateUrl then .resolved { data := none, headers := none }
  else .resolved { data := some { success := true }, headers := none }

/-- A service where login hands out a token and every other call resolves with a null
body. -/
def nullAfterLoginService : Service := fun _ req =>
  if req.url = loginRequest.url then
    .resolved { data := some { token := some "jwt" }, headers := none }
  else .resolved { data := none, headers := none }

/-- A service that hands out a login token but no anti-forgery token. -/
def noCsrfService : Service := fun _ _ =>
  .resolved { data := some { token := some "jwt", success := true }, headers := some [] }

/-- A service whose statistics endpoint answers with status 500. -/
def statsDownService : Service := fun _ req =>
  if req.url = statsUrl then
    .rejected { message := "Request failed with status code 500",
                response := some { status := 500, data := "\"boom\"" } }
  else .resolved { data := some { success := true }, headers := none }

/-! ## Lemmas on decimal numerals -/

theorem digitChar_toNat (k : Nat) (hk : k < 10) : (Nat.digitChar k).toNat - 48 = k := by
  interval_cases k <;> rfl

theorem digitChar_isDigit (k : Nat) (hk : k < 10) : (Nat.digitChar k).isDigit = true := by
  interval_cases k <;> rfl

theorem foldl_toDigitsCore (fuel : Nat) : ∀ (n : Nat) (ds : List Char), n < fuel →
    (Nat.toDigitsCore 10 fuel n ds).foldl (fun acc ch => acc * 10 + (ch.toNat - 48)) 0
      = ds.foldl (fun acc ch => acc * 10 + (ch.toNat - 48)) n := by
  induction fuel with
  | zero => intro n ds h; omega
  | succ fuel ih =>
    intro n ds h
    simp only [Nat.toDigitsCore]
    split
    · rename_i h0
      simp only [List.foldl_cons, digitChar_toNat (n % 10) (Nat.mod_lt _ (by decide))]
      have : n % 10 = n := by omega
      simp [this]
    · rename_i h0
      rw [ih (n / 10) _ (by omega)]
      simp only [List.foldl_cons, digitChar_toNat (n % 10) (Nat.mod_lt _ (by decide))]
      have : n / 10 * 10 + n % 10 = n := by omega
      rw [this]

theorem digitsValue_toDigits (n : Nat) : digitsValue (Nat.toDigits 10 n) = n := by
  unfold digitsValue Nat.toDigits
  rw [foldl_toDigitsCore (n + 1) n [] (by omega)]
  rfl

theorem toDigitsCore_isDigit (fuel : Nat) : ∀ (n : Nat) (ds : List Char),
    (∀ c ∈ ds, c.isDigit = true) → ∀ c ∈ Nat.toDigitsCore 10 fuel n ds, c.isDigit = true := by
  induction fuel with
  | zero => intro n ds h c hc; simpa [Nat.toDigitsCore] using h c (by simpa [Nat.toDigitsCore] using hc)
  | succ fuel ih =>
    intro n ds h c hc
    simp only [Nat.toDigitsCore] at hc
    have hd : ∀ c ∈ Nat.digitChar (n % 10) :: ds, c.isDigit = true := by
      intro c hc
      rcases List.mem_cons.1 hc with rfl | hc
      · exact digitChar_isDigit _ (Nat.mod_lt _ (by decide))
      · exact h c hc
    split at hc
    · exact hd c hc
    · exact ih _ _ hd c hc

theorem repr_data (n : Nat) : (toString n).data = Nat.toDigits 10 n := rfl

@[simp]
theorem bind_apply {α β : Type} (m : Script α) (f : α → Script β) (w : World) :
    (m >>= f) w = Script.bind m f w := rfl

@[simp]
theorem pure_apply {α : Type} (a : α) (w : World) :
    (pure a : Script α) w = (.ok a, w) := rfl

@[simp]
theorem requestsOf_append (xs ys : List Event) :
    requestsOf (xs ++ ys) = requestsOf xs ++ requestsOf ys := by
  induction xs with
  | nil => rfl
  | cons e es ih => cases e <;> simp [requestsOf, ih]

@[simp]
theorem outputOf_append (xs ys : List Event) :
    outputOf (xs ++ ys) = outputOf xs ++ outputOf ys := by
  induction xs with
  | nil => rfl
  | cons e es ih => cases e <;> simp [requestsOf, outputOf, ih]

@[simp]
theorem requestsOf_map_out (ls : List Line) : requestsOf (ls.map .out) = [] := by
  induction ls with
  | nil => rfl
  | cons l ls ih => simpa [requestsOf] using ih

@[simp]
theorem outputOf_map_out (ls : List Line) : outputOf (ls.map .out) = ls := by
  induction ls with
  | nil => rfl
  | cons l ls ih => simpa [outputOf] using ih


theorem printResult_eq (title : String) (result : Option Payload) :
    printResult title result = emit (resultLines title result) := by
  funext w
  cases result with
  | none => simp [printResult, emit, resultLines, blockHead, Script.bind, log, Script.throw]
  | some r =>
    by_cases h1 : r.success = true <;> by_cases h2 : truthyNat r.totalRequests = true <;>
      by_cases h3 : truthyNat r.novelCount = true <;>
      simp [printResult, emit, resultLines, blockHead, Script.bind, log, h1, h2, h3]

theorem printServerStatus_eq (data : Option Payload) :
    printServerStatus data = emit (statusLines data) := by
  funext w
  cases data with
  | none => simp [printServerStatus, emit, statusLines, blockHead, Script.bind, log, Script.throw]
  | some r => simp [printServerStatus, emit, statusLines, blockHead, Script.bind, log]

theorem runSteps_eq (svc : Service) (steps : List Step) : ∀ w : World,
    runSteps svc steps w =
      (toExcept (stepsRun svc w.requests steps).2,
        { w with trace := w.trace ++ (stepsRun svc w.requests steps).1 }) := by
  induction steps with
  | nil => intro w; simp [runSteps, stepsRun, log, toExcept, banner]
  | cons s ss ih =>
    intro w
    simp only [runSteps, stepsRun, bind_apply, Script.bind, log, axios, World.requests,
      requestsOf_append, requestsOf, List.append_nil]
    cases h : svc (requestsOf w.trace) s.request with
    | rejected e => simp [toExcept]
    | resolved r =>
      simp only [emit]
      cases h2 : (s.render r.data).2 with
      | some e => simp [toExcept]
      | none => simp [ih, World.requests, requestsOf]

theorem peel_step (isTestMode : Bool) (svc : Service) (intro : String) (method : Method)
    (url : String) (body : Body) (needCsrf : Bool) (render : Option Payload → Printed)
    (k1 k2 : Script Unit) (a c : String)
    (h : ∀ w : World, w.authToken = a → w.csrfToken = c → k1 w = k2 w) :
    ∀ w : World, w.authToken = a → w.csrfToken = c →
      (do
        log .blue intro
        let r ← axios svc
          { method := method, url := url, body := body,
            headers := ← readAuthHeaders isTestMode needCsrf }
        emit (render r.data)
        k1) w =
      (do
        log .blue intro
        let r ← axios svc
          { method := method, url := url, body := body,
            headers := createAuthHeaders isTestMode a c needCsrf }
        emit (render r.data)
        k2) w := by
  intro w ha hc
  simp only [bind_apply, Script.bind, log, axios, readAuthHeaders, emit, ha, hc, World.requests]
  cases svc (requestsOf (w.trace ++ [Event.out ⟨.blue, intro⟩]))
      { method := method, url := url, body := body,
        headers := createAuthHeaders isTestMode a c needCsrf } with
  | rejected e => rfl
  | resolved r =>
    dsimp only
    cases (render r.data).2 with
    | some e => rfl
    | none => exact h _ rfl rfl

theorem performanceTests_eq (isTestMode : Bool) (svc : Service) (w : World) :
    performanceTests isTestMode svc w =
      runSteps svc (perfSteps isTestMode w.authToken w.csrfToken) w := by
  simp only [performanceTests, printResult_eq, printServerStatus_eq]
  refine peel_step _ _ _ _ _ _ _ _ _ _ _ _ ?_ w rfl rfl
  refine peel_step _ _ _ _ _ _ _ _ _ _ _ _ ?_
  refine peel_step _ _ _ _ _ _ _ _ _ _ _ _ ?_
  refine peel_step _ _ _ _ _ _ _ _ _ _ _ _ ?_
  refine peel_step _ _ _ _ _ _ _ _ _ _ _ _ ?_
  refine peel_step _ _ _ _ _ _ _ _ _ _ _ _ ?_
  refine peel_step _ _ _ _ _ _ _ _ _ _ _ _ ?_
  intro w _ _
  rfl

theorem authenticate_eq (isTestMode : Bool) (svc : Service) (w : World) :
    authenticate isTestMode svc w =
      (.ok (authRun isTestMode svc w.requests w.authToken w.csrfToken).ok,
        { authToken := (authRun isTestMode svc w.requests w.authToken w.csrfToken).authToken,
          csrfToken := (authRun isTestMode svc w.requests w.authToken w.csrfToken).csrfToken,
          trace := w.trace ++
            (authRun isTestMode svc w.requests w.authToken w.csrfToken).events }) := by
  cases isTestMode with
  | true => simp [authenticate, authRun, Script.bind, log]
  | false =>
    simp only [authenticate, authRun, Script.tryCatch, authenticateBody, bind_apply, Script.bind,
      log, axios, World.requests, requestsOf_append, requestsOf, List.append_nil, Bool.false_eq_true,
      if_false]
    cases h1 : svc (requestsOf w.trace) loginRequest with
    | rejected e =>
      cases hr : e.response <;>
        simp [authenticateHandler, authErrorLines, Script.bind, log, hr]
    | resolved r =>
      dsimp only
      cases h2 : truthyValue (r.data.bind (fun d => d.token)) with
      | none => simp [Script.bind, log]
      | some token =>
        simp only [setAuthToken, getWorld, bind_apply, pure_apply, Script.bind, log, axios,
          World.requests, requestsOf_append, requestsOf, List.append_nil]
        cases h3 : svc (requestsOf w.trace ++ [loginRequest]) (csrfRequest token) with
        | rejected e =>
          cases hr : e.response <;>
            simp [authenticateHandler, authErrorLines, Script.bind, log, hr]
        | resolved r2 =>
          dsimp only
          cases h4 : truthyValue (r2.headers.bind (fun h => h.lookup "x-csrf-token")) <;>
            simp [setCsrfToken, Script.bind, log]

theorem runTestsHandler_eq (e : JsError) (w : World) :
    runTestsHandler e w = (.ok (), { w with trace := w.trace ++ (handlerLines e).map .out }) := by
  cases hr : e.response <;> simp [runTestsHandler, handlerLines, Script.bind, log, hr]

theorem run_eq (isTestMode : Bool) (svc : Service) (w : World) :
    run isTestMode svc w =
      { authToken := (authRun isTestMode svc w.requests w.authToken w.csrfToken).authToken,
        csrfToken := (authRun isTestMode svc w.requests w.authToken w.csrfToken).csrfToken,
        trace := w.trace ++ runTrace isTestMode svc w.requests w.authToken w.csrfToken } := by
  simp only [run, runTests, Script.tryCatch, runTestsBody, bind_apply, Script.bind, log,
    authenticate_eq, World.requests, requestsOf_append, requestsOf, List.append_nil]
  cases hok : ((authRun isTestMode svc (requestsOf w.trace) w.authToken w.csrfToken).ok
      || isTestMode) with
  | false =>
    simp only [Bool.or_eq_false_iff] at hok
    obtain ⟨h1, rfl⟩ := hok
    simp [h1, log, runTrace, modeLine]
  | true =>
    have hc : (!(authRun isTestMode svc (requestsOf w.trace) w.authToken w.csrfToken).ok
        && !isTestMode) = false := by
      rw [← Bool.not_or, hok]; rfl
    simp only [hc, Bool.false_eq_true, if_false, performanceTests_eq, runSteps_eq, World.requests,
      requestsOf_append, requestsOf, List.append_nil, runTrace, hok, if_true, stepsTrace]
    cases hs : (stepsRun svc
        (requestsOf w.trace ++
          requestsOf (authRun isTestMode svc (requestsOf w.trace) w.authToken w.csrfToken).events)
        (perfSteps isTestMode
          (authRun isTestMode svc (requestsOf w.trace) w.authToken w.csrfToken).authToken
          (authRun isTestMode svc (requestsOf w.trace) w.authToken w.csrfToken).csrfToken)).2 with
    | none => simp [toExcept, modeLine]
    | some e => simp [toExcept, runTestsHandler_eq, modeLine]

/-! ## Lemmas on sequences of steps -/

theorem stepsRun_cons_rejected (svc : Service) (hist : List Request) (s : Step)
    (ss : List Step) (e : JsError) (h : svc hist s.request = .rejected e) :
    stepsRun svc hist (s :: ss) = ([.out ⟨.blue, s.intro⟩, .call s.request], some e) := by
  simp only [stepsRun, h]

theorem stepsRun_cons_thrown (svc : Service) (hist : List Request) (s : Step)
    (ss : List Step) (r : Response) (e : JsError) (h : svc hist s.request = .resolved r)
    (h2 : (s.render r.data).2 = some e) :
    stepsRun svc hist (s :: ss) =
      (.out ⟨.blue, s.intro⟩ :: .call s.request :: (s.render r.data).1.map .out, some e) := by
  simp only [stepsRun, h, h2]

theorem stepsRun_cons_done (svc : Service) (hist : List Request) (s : Step)
    (ss : List Step) (r : Response) (h : svc hist s.request = .resolved r)
    (h2 : (s.render r.data).2 = none) :
    stepsRun svc hist (s :: ss) =
      (.out ⟨.blue, s.intro⟩ :: .call s.request :: (s.render r.data).1.map .out
          ++ (stepsRun svc (hist ++ [s.request]) ss).1,
        (stepsRun svc (hist ++ [s.request]) ss).2) := by
  simp only [stepsRun, h, h2]

/-- The three ways a step can go. -/
theorem stepsRun_cases (svc : Service) (hist : List Request) (s : Step) (ss : List Step) :
    (∃ e, svc hist s.request = .rejected e ∧
      stepsRun svc hist (s :: ss) = ([.out ⟨.blue, s.intro⟩, .call s.request], some e)) ∨
    (∃ r e, svc hist s.request = .resolved r ∧ (s.render r.data).2 = some e ∧
      stepsRun svc hist (s :: ss) =
        (.out ⟨.blue, s.intro⟩ :: .call s.request :: (s.render r.data).1.map .out, some e)) ∨
    (∃ r, svc hist s.request = .resolved r ∧ (s.render r.data).2 = none ∧
      stepsRun svc hist (s :: ss) =
        (.out ⟨.blue, s.intro⟩ :: .call s.request :: (s.render r.data).1.map .out
            ++ (stepsRun svc (hist ++ [s.request]) ss).1,
          (stepsRun svc (hist ++ [s.request]) ss).2)) := by
  cases h : svc hist s.request with
  | rejected e => exact Or.inl ⟨e, rfl, stepsRun_cons_rejected svc hist s ss e h⟩
  | resolved r =>
    cases h2 : (s.render r.data).2 with
    | some e => exact Or.inr (Or.inl ⟨r, e, rfl, h2, stepsRun_cons_thrown svc hist s ss r e h h2⟩)
    | none => exact Or.inr (Or.inr ⟨r, rfl, h2, stepsRun_cons_done svc hist s ss r h h2⟩)

theorem requestsOf_stepsRun_isPrefix (svc : Service) (steps : List Step) :
    ∀ hist, requestsOf (stepsRun svc hist steps).1 <+: steps.map (fun s => s.request) := by
  induction steps with
  | nil => intro hist; exact ⟨[], by simp [stepsRun, requestsOf]⟩
  | cons s ss ih =>
    intro hist
    rcases stepsRun_cases svc hist s ss with ⟨e, -, h⟩ | ⟨r, e, -, -, h⟩ | ⟨r, -, -, h⟩
    · exact ⟨ss.map (fun s => s.request), by simp [h, requestsOf]⟩
    · exact ⟨ss.map (fun s => s.request), by simp [h, requestsOf]⟩
    · obtain ⟨t, ht⟩ := ih (hist ++ [s.request])
      exact ⟨t, by simp [h, requestsOf, ht]⟩

theorem requestsOf_stepsTrace (svc : Service) (hist : List Request) (steps : List Step) :
    requestsOf (stepsTrace svc hist steps) = requestsOf (stepsRun svc hist steps).1 := by
  unfold stepsTrace
  cases (stepsRun svc hist steps).2 <;> simp [requestsOf]

theorem callCompletes_zero (svc : Service) (base : List Request) (req : Request)
    (P : List Request) :
    CallCompletes svc base (req :: P) 0 ↔ ∃ r p, svc base req = .resolved r ∧ r.data = some p := by
  constructor
  · rintro ⟨q, r, p, hq, hr, hp⟩
    simp at hq
    subst hq
    exact ⟨r, p, by simpa using hr, hp⟩
  · rintro ⟨r, p, hr, hp⟩
    exact ⟨req, r, p, by simp, by simpa using hr, hp⟩

theorem callCompletes_succ (svc : Service) (base : List Request) (req : Request)
    (P : List Request) (k : Nat) :
    CallCompletes svc base (req :: P) (k + 1) ↔ CallCompletes svc (base ++ [req]) P k := by
  simp [CallCompletes]

theorem stepsRun_length_iff (svc : Service) (steps : List Step)
    (hreg : ∀ s ∈ steps, s.Regular) :
    ∀ hist n, n < steps.length →
      (n < (requestsOf (stepsRun svc hist steps).1).length ↔
        ∀ k < n, CallCompletes svc hist (steps.map (fun s => s.request)) k) := by
  induction steps with
  | nil => intro hist n hn; simp at hn
  | cons s ss ih =>
    intro hist n hn
    have hs : s.Regular := hreg s (by simp)
    have hss : ∀ t ∈ ss, t.Regular := fun t ht => hreg t (by simp [ht])
    cases n with
    | zero =>
      simp only [Nat.not_lt_zero, false_imp_iff, implies_true, iff_true]
      rcases stepsRun_cases svc hist s ss with ⟨e, -, h⟩ | ⟨r, e, -, -, h⟩ | ⟨r, -, -, h⟩ <;>
        simp [h, requestsOf]
    | succ n =>
      have hn2 : n < ss.length := by simpa using hn
      have hsplit : (∀ k < n + 1, CallCompletes svc hist ((s :: ss).map (fun s => s.request)) k) ↔
          (CallCompletes svc hist (s.request :: ss.map (fun s => s.request)) 0 ∧
            ∀ k < n, CallCompletes svc (hist ++ [s.request]) (ss.map (fun s => s.request)) k) := by
        constructor
        · intro h
          refine ⟨h 0 (by omega), fun k hk => ?_⟩
          have := h (k + 1) (by omega)
          simpa [callCompletes_succ] using this
        · rintro ⟨h0, h1⟩ k hk
          cases k with
          | zero => simpa using h0
          | succ k =>
            simp only [List.map_cons, callCompletes_succ]
            exact h1 k (by omega)
      rw [hsplit, callCompletes_zero]
      rcases stepsRun_cases svc hist s ss with ⟨e, hsv, h⟩ | ⟨r, e, hsv, hr, h⟩ | ⟨r, hsv, hr, h⟩
      · simp [h, requestsOf, hsv]
      · have : ¬ ∃ r2 p, svc hist s.request = .resolved r2 ∧ r2.data = some p := by
          rintro ⟨r2, p, h1, h2⟩
          rw [hsv] at h1
          cases h1
          rw [h2, hs.body_prints p] at hr
          cases hr
        have hlen : ¬ (n + 1 < (requestsOf (stepsRun svc hist (s :: ss)).1).length) := by
          simp [h, requestsOf]
        exact ⟨fun hl => absurd hl hlen, fun hc => absurd hc.1 this⟩
      · have hd : ∃ r2 p, svc hist s.request = .resolved r2 ∧ r2.data = some p := by
          cases hdat : r.data with
          | none =>
            obtain ⟨e, he⟩ := hs.null_throws
            rw [hdat, he] at hr
            cases hr
          | some p => exact ⟨r, p, hsv, hdat⟩
        simp only [h, hd, true_and]
        rw [← ih hss (hist ++ [s.request]) n hn2]
        simp [requestsOf]

theorem tick_ne_banner (m : String) : ("✓ " ++ m) ≠ "\n✓ 所有测试完成!" := by
  intro h
  have := congrArg String.data h
  simp at this

theorem banner_ne_tick (m : String) : ¬ ("\n✓ 所有测试完成!" = "✓ " ++ m) :=
  fun h => tick_ne_banner m h.symm

theorem resultLines_regular (intro title : String) (req : Request)
    (ht : title ≠ "\n===================================") :
    Step.Regular { intro := intro, request := req, render := resultLines title } where
  null_throws := ⟨_, rfl⟩
  body_prints := fun _ => rfl
  no_banner := by
    intro d
    cases d with
    | none => simp [resultLines, blockHead, banner]
    | some r =>
      by_cases h1 : r.success = true <;> by_cases h2 : truthyNat r.totalRequests = true <;>
        by_cases h3 : truthyNat r.novelCount = true <;>
        simp [resultLines, blockHead, banner, h1, h2, h3, banner_ne_tick]
  one_block := by
    intro r
    have ht2 : ¬ ("\n===================================" = title) := fun h => ht h.symm
    by_cases h1 : r.success = true <;> by_cases h2 : truthyNat r.totalRequests = true <;>
      by_cases h3 : truthyNat r.novelCount = true <;>
      simp [resultLines, blockHead, blockOpener, h1, h2, h3, List.count_cons, ht2]

theorem statusLines_regular (intro : String) (req : Request) :
    Step.Regular { intro := intro, request := req, render := statusLines } where
  null_throws := ⟨_, rfl⟩
  body_prints := fun _ => rfl
  no_banner := by
    intro d
    cases d <;> simp [statusLines, blockHead, banner]
  one_block := by
    intro r
    simp [statusLines, blockHead, blockOpener, List.count_cons]

theorem perfSteps_regular (isTestMode : Bool) (a c : String) :
    ∀ s ∈ perfSteps isTestMode a c, s.Regular := by
  intro s hs
  simp only [perfSteps, List.mem_cons, List.mem_singleton, List.not_mem_nil, or_false] at hs
  rcases hs with rfl | rfl | rfl | rfl | rfl | rfl | rfl
  · exact resultLines_regular _ _ _ (by decide)
  · exact resultLines_regular _ _ _ (by decide)
  · exact resultLines_regular _ _ _ (by decide)
  · exact resultLines_regular _ _ _ (by decide)
  · exact resultLines_regular _ _ _ (by decide)
  · exact resultLines_regular _ _ _ (by decide)
  · exact statusLines_regular _ _

/-! ## Lemmas on traces -/

theorem call_not_mem_map_out (ls : List Line) (req : Request) :
    Event.call req ∉ ls.map Event.out := by
  simp

theorem append_eq_of_not_mem {α : Type} (x : α) :
    ∀ (xs ys pre rest : List α), xs ++ ys = pre ++ x :: rest → x ∉ xs →
      ∃ pre2, pre = xs ++ pre2 ∧ ys = pre2 ++ x :: rest := by
  intro xs
  induction xs with
  | nil => intro ys pre rest h _; exact ⟨pre, rfl, by simpa using h⟩
  | cons y xs ih =>
    intro ys pre rest h hx
    cases pre with
    | nil =>
      simp only [List.cons_append, List.nil_append, List.cons.injEq] at h
      exact absurd (by simp [h.1]) hx
    | cons p pre =>
      simp only [List.cons_append, List.cons.injEq] at h
      obtain ⟨pre2, h1, h2⟩ := ih ys pre rest h.2 (fun hm => hx (List.mem_cons_of_mem _ hm))
      exact ⟨pre2, by simp [h.1, h1], h2⟩

theorem first_call_split (l : Line) (q req : Request) (tail pre rest : List Event)
    (h : Event.out l :: Event.call q :: tail = pre ++ Event.call req :: rest) :
    (pre = [Event.out l] ∧ q = req ∧ rest = tail) ∨
      ∃ pre3, pre = Event.out l :: Event.call q :: pre3 ∧ tail = pre3 ++ Event.call req :: rest := by
  cases pre with
  | nil => simp at h
  | cons p pre =>
    simp only [List.cons_append, List.cons.injEq] at h
    obtain ⟨rfl, h⟩ := h
    cases pre with
    | nil =>
      simp only [List.nil_append, List.cons.injEq, Event.call.injEq] at h
      exact Or.inl ⟨rfl, h.1, h.2.symm⟩
    | cons p2 pre =>
      simp only [List.cons_append, List.cons.injEq] at h
      obtain ⟨rfl, h⟩ := h
      exact Or.inr ⟨pre, rfl, h⟩

theorem banner_not_mem_handlerLines (e : JsError) :
    Event.out banner ∉ (handlerLines e).map Event.out := by
  cases h : e.response <;> simp [handlerLines, banner, h]

theorem stepsTrace_after_rejected (svc : Service) (steps : List Step)
    (hreg : ∀ s ∈ steps, s.Regular) :
    ∀ (hist : List Request) (pre : List Event) (req : Request) (rest : List Event) (e : JsError),
      stepsTrace svc hist steps = pre ++ Event.call req :: rest →
      svc (hist ++ requestsOf pre) req = .rejected e →
        rest = (handlerLines e).map Event.out ∧ Event.out banner ∉ stepsTrace svc hist steps := by
  induction steps with
  | nil =>
    intro hist pre req rest e h _
    have : Event.call req ∈ stepsTrace svc hist [] := by rw [h]; simp
    simp [stepsTrace, stepsRun] at this
  | cons s ss ih =>
    intro hist pre req rest e h hrej
    have hs : s.Regular := hreg s (by simp)
    have hss : ∀ t ∈ ss, t.Regular := fun t ht => hreg t (by simp [ht])
    rcases stepsRun_cases svc hist s ss with ⟨e1, hsv, hrun⟩ | ⟨r, e1, hsv, hr, hrun⟩ |
      ⟨r, hsv, hr, hrun⟩
    · have ht : stepsTrace svc hist (s :: ss) =
          Event.out ⟨.blue, s.intro⟩ :: Event.call s.request ::
            (handlerLines e1).map Event.out := by
        simp [stepsTrace, hrun]
      rw [ht] at h
      rcases first_call_split _ _ _ _ _ _ h with ⟨hp, hq, hrest⟩ | ⟨pre3, -, htail⟩
      · subst hp hq
        simp only [requestsOf, List.append_nil] at hrej
        rw [hsv] at hrej
        cases hrej
        refine ⟨hrest, ?_⟩
        rw [ht]
        simpa [banner] using banner_not_mem_handlerLines e
      · exact absurd (by rw [htail]; simp) (call_not_mem_map_out (handlerLines e1) req)
    · have ht : stepsTrace svc hist (s :: ss) =
          Event.out ⟨.blue, s.intro⟩ :: Event.call s.request ::
            ((s.render r.data).1 ++ handlerLines e1).map Event.out := by
        simp [stepsTrace, hrun]
      rw [ht] at h
      rcases first_call_split _ _ _ _ _ _ h with ⟨hp, hq, -⟩ | ⟨pre3, -, htail⟩
      · subst hp hq
        simp only [requestsOf, List.append_nil] at hrej
        rw [hsv] at hrej
        cases hrej
      · exact absurd (by rw [htail]; simp) (call_not_mem_map_out _ req)
    · have ht : stepsTrace svc hist (s :: ss) =
          Event.out ⟨.blue, s.intro⟩ :: Event.call s.request ::
            ((s.render r.data).1.map Event.out ++ stepsTrace svc (hist ++ [s.request]) ss) := by
        simp [stepsTrace, hrun]
      rw [ht] at h
      rcases first_call_split _ _ _ _ _ _ h with ⟨hp, hq, -⟩ | ⟨pre3, hpre, htail⟩
      · subst hp hq
        simp only [requestsOf, List.append_nil] at hrej
        rw [hsv] at hrej
        cases hrej
      · obtain ⟨pre4, hp4, h4⟩ := append_eq_of_not_mem _ _ _ _ _ htail
          (call_not_mem_map_out _ req)
        subst hpre hp4
        have hrej2 : svc ((hist ++ [s.request]) ++ requestsOf pre4) req = .rejected e := by
          simpa [requestsOf] using hrej
        obtain ⟨h5, h6⟩ := ih hss (hist ++ [s.request]) pre4 req rest e h4 hrej2
        refine ⟨h5, ?_⟩
        rw [ht]
        have hb := hs.no_banner r.data
        simp only [List.mem_cons, List.mem_append, List.mem_map, not_or]
        refine ⟨by simp [banner], by simp, ?_, h6⟩
        rintro ⟨l, hl, hl2⟩
        cases hl2
        exact hb hl

theorem stepsRun_all_complete (svc : Service) (steps : List Step)
    (hreg : ∀ s ∈ steps, s.Regular)
    (hsvc : ∀ hist req, ∃ r p, svc hist req = .resolved r ∧ r.data = some p) :
    ∀ hist, (stepsRun svc hist steps).2 = none ∧
      requestsOf (stepsRun svc hist steps).1 = steps.map (fun s => s.request) ∧
      (outputOf (stepsRun svc hist steps).1).count blockOpener = steps.length ∧
      ∃ init, outputOf (stepsRun svc hist steps).1 = init ++ [banner] := by
  induction steps with
  | nil =>
    intro hist
    refine ⟨rfl, rfl, by simp [stepsRun, outputOf, banner, blockOpener], ⟨[], rfl⟩⟩
  | cons s ss ih =>
    intro hist
    have hs : s.Regular := hreg s (by simp)
    have hss : ∀ t ∈ ss, t.Regular := fun t ht => hreg t (by simp [ht])
    obtain ⟨r, p, hr, hp⟩ := hsvc hist s.request
    have hrun := stepsRun_cons_done svc hist s ss r hr (by rw [hp]; exact hs.body_prints p)
    obtain ⟨h1, h2, h3, init, h4⟩ := ih hss (hist ++ [s.request])
    rw [hrun]
    refine ⟨h1, by simp [requestsOf, h2], ?_, ?_⟩
    · have hb := hs.one_block p
      have hout : outputOf (Event.out ⟨.blue, s.intro⟩ :: Event.call s.request ::
            List.map Event.out (s.render r.data).1 ++
              (stepsRun svc (hist ++ [s.request]) ss).1) =
          ⟨.blue, s.intro⟩ :: ((s.render (some p)).1 ++
            outputOf (stepsRun svc (hist ++ [s.request]) ss).1) := by
        simp [outputOf, hp]
      rw [hout, List.count_cons, List.count_append, hb, h3]
      simp [blockOpener]
      omega
    · exact ⟨⟨.blue, s.intro⟩ :: (s.render r.data).1 ++ init, by simp [outputOf, h4]⟩

/-! ## Lemmas on whole runs -/

theorem afterAuth_eq (isTestMode : Bool) (svc : Service) :
    afterAuth isTestMode svc =
      { authToken := (authRun isTestMode svc [] "" "").authToken,
        csrfToken := (authRun isTestMode svc [] "" "").csrfToken,
        trace := (authRun isTestMode svc [] "" "").events } := by
  simp [afterAuth, authenticate_eq, World.initial, World.requests, requestsOf]

theorem authenticate_initial_ok (isTestMode : Bool) (svc : Service) :
    (authenticate isTestMode svc World.initial).1 =
      .ok (authRun isTestMode svc [] "" "").ok := by
  simp [authenticate_eq, World.initial, World.requests, requestsOf]

theorem requests_run (isTestMode : Bool) (svc : Service) (w : World) :
    (run isTestMode svc w).requests =
      w.requests ++ requestsOf (authRun isTestMode svc w.requests w.authToken w.csrfToken).events ++
        if (authRun isTestMode svc w.requests w.authToken w.csrfToken).ok || isTestMode then
          requestsOf (stepsRun svc
            (w.requests ++
              requestsOf (authRun isTestMode svc w.requests w.authToken w.csrfToken).events)
            (perfSteps isTestMode
              (authRun isTestMode svc w.requests w.authToken w.csrfToken).authToken
              (authRun isTestMode svc w.requests w.authToken w.csrfToken).csrfToken)).1
        else [] := by
  rw [run_eq]
  simp only [World.requests, runTrace, requestsOf_append, requestsOf]
  split <;> simp [requestsOf_stepsTrace, requestsOf]

theorem output_run (isTestMode : Bool) (svc : Service) (w : World) :
    (run isTestMode svc w).output = w.output ++ outputOf (runTrace isTestMode svc w.requests
      w.authToken w.csrfToken) := by
  rw [run_eq]
  simp [World.output]

theorem perfIssued_eq (isTestMode : Bool) (svc : Service)
    (hok : ((authRun isTestMode svc [] "" "").ok || isTestMode) = true) :
    perfIssued isTestMode svc =
      requestsOf (stepsRun svc (requestsOf (authRun isTestMode svc [] "" "").events)
        (perfSteps isTestMode (authRun isTestMode svc [] "" "").authToken
          (authRun isTestMode svc [] "" "").csrfToken)).1 := by
  unfold perfIssued
  rw [requests_run, afterAuth_eq]
  simp [World.initial, World.requests, requestsOf, hok]

theorem perfIssued_nil (svc : Service)
    (hok : (authRun false svc [] "" "").ok = false) :
    perfIssued false svc = [] := by
  unfold perfIssued
  rw [requests_run, afterAuth_eq]
  simp [World.initial, World.requests, requestsOf, hok]

/-- The requests of `authenticate`. -/
theorem authRun_requests (isTestMode : Bool) (svc : Service) (hist : List Request)
    (a c : String) :
    requestsOf (authRun isTestMode svc hist a c).events = [] ∨
    requestsOf (authRun isTestMode svc hist a c).events = [loginRequest] ∨
    ∃ t, requestsOf (authRun isTestMode svc hist a c).events = [loginRequest, csrfRequest t] := by
  unfold authRun
  split
  · simp [requestsOf]
  · split
    · simp [requestsOf]
    · split
      · simp [requestsOf]
      · split
        · simp [requestsOf]
        · split <;> simp [requestsOf]

theorem mem_requestsOf_stepsRun (svc : Service) (steps : List Step) (hist : List Request)
    (req : Request) (h : req ∈ requestsOf (stepsRun svc hist steps).1) :
    req ∈ steps.map (fun s => s.request) := by
  obtain ⟨t, ht⟩ := requestsOf_stepsRun_isPrefix svc steps hist
  rw [← ht]
  exact List.mem_append_left _ h

theorem perfRequests_map_endpoint (isTestMode : Bool) (a c : String) :
    (perfRequests isTestMode a c).map endpoint = performanceEndpoints := rfl

theorem perfRequests_length (isTestMode : Bool) (a c : String) :
    (perfRequests isTestMode a c).length = 7 := rfl

/-- Each performance-test request is either one of the three writes, built with
`createAuthHeaders(true)`, or one of the four reads, built with `createAuthHeaders()`. -/
theorem mem_perfRequests (isTestMode : Bool) (a c : String) (req : Request)
    (h : req ∈ perfRequests isTestMode a c) :
    endpoint req ∈ performanceEndpoints ∧
    ((endpoint req ∈ writeEndpoints ∧ req.method ≠ .GET ∧
        req.headers = createAuthHeaders isTestMode a c true) ∨
      (endpoint req ∉ writeEndpoints ∧ req.method = .GET ∧
        req.headers = createAuthHeaders isTestMode a c false)) := by
  simp only [perfRequests, perfSteps, List.map_cons, List.map_nil, List.mem_cons,
    List.mem_singleton, List.not_mem_nil, or_false] at h
  rcases h with rfl | rfl | rfl | rfl | rfl | rfl | rfl
  · exact ⟨by simp only [endpoint]; decide, Or.inl ⟨by simp only [endpoint]; decide, by simp, rfl⟩⟩
  · exact ⟨by simp only [endpoint]; decide, Or.inl ⟨by simp only [endpoint]; decide, by simp, rfl⟩⟩
  · exact ⟨by simp only [endpoint]; decide, Or.inr ⟨by simp only [endpoint]; decide, rfl, rfl⟩⟩
  · exact ⟨by simp only [endpoint]; decide, Or.inr ⟨by simp only [endpoint]; decide, rfl, rfl⟩⟩
  · exact ⟨by simp only [endpoint]; decide, Or.inr ⟨by simp only [endpoint]; decide, rfl, rfl⟩⟩
  · exact ⟨by simp only [endpoint]; decide, Or.inl ⟨by simp only [endpoint]; decide, by simp, rfl⟩⟩
  · exact ⟨by simp only [endpoint]; decide, Or.inr ⟨by simp only [endpoint]; decide, rfl, rfl⟩⟩

theorem createAuthHeaders_testMode (a c : String) (needCsrf : Bool) :
    createAuthHeaders true a c needCsrf = [("Content-Type", "application/json")] := rfl

theorem createAuthHeaders_lookup (a c : String) (needCsrf : Bool) :
    (createAuthHeaders false a c needCsrf).lookup "Content-Type" = some "application/json" ∧
    (createAuthHeaders false a c needCsrf).lookup "Authorization" =
      (if a ≠ "" then some ("Bearer " ++ a) else none) ∧
    (createAuthHeaders false a c needCsrf).lookup "X-CSRF-TOKEN" =
      (if needCsrf = true ∧ c ≠ "" then some c else none) := by
  by_cases ha : a = "" <;> by_cases hc : c = "" <;> cases needCsrf <;>
    simp [createAuthHeaders, ha, hc, List.lookup]

theorem truthyValue_some (o : Option String) (t : String) (h : truthyValue o = some t) :
    o = some t ∧ t ≠ "" := by
  cases o with
  | none => simp [truthyValue] at h
  | some s =>
    by_cases hs : s = ""
    · simp [truthyValue, hs] at h
    · simp only [truthyValue, hs, if_false, Option.some.injEq] at h
      subst h
      exact ⟨rfl, hs⟩

theorem requestsOf_stepsRun_cons (svc : Service) (hist : List Request) (s : Step)
    (ss : List Step) :
    ∃ t, requestsOf (stepsRun svc hist (s :: ss)).1 = s.request :: t := by
  rcases stepsRun_cases svc hist s ss with ⟨e, -, h⟩ | ⟨r, e, -, -, h⟩ | ⟨r, -, -, h⟩
  · exact ⟨[], by simp [h, requestsOf]⟩
  · exact ⟨[], by simp [h, requestsOf]⟩
  · exact ⟨_, by simp [h, requestsOf]; rfl⟩

theorem perfSteps_cons (isTestMode : Bool) (a c : String) :
    ∃ s ss, perfSteps isTestMode a c = s :: ss ∧
      s.request = { method := .DELETE, url := clearDataUrl, body := .absent,
                    headers := createAuthHeaders isTestMode a c true } :=
  ⟨_, _, rfl, rfl⟩

/-- What follows for a list of issued requests from being an initial segment of the seven
planned ones whose length is decided by the calls that complete. -/
theorem issued_facts (R P : List Request) (C : Nat → Prop) (hpre : R <+: P)
    (hlen : P.length = 7)
    (hiff : ∀ n, n < 7 → (n < R.length ↔ ∀ k < n, C k)) :
    (∀ k, k < R.length → ¬ C k → R = P.take (k + 1)) ∧ (R = P ↔ ∀ k < 6, C k) := by
  obtain ⟨t, ht⟩ := hpre
  have hle : R.length ≤ 7 := by
    have := congrArg List.length ht
    simp only [List.length_append] at this
    omega
  have htake : R = P.take R.length := by
    rw [← ht, List.take_left]
  constructor
  · intro k hk hC
    have hk2 : R.length = k + 1 := by
      by_contra hne
      have h1 : k + 1 < R.length := by omega
      exact hC ((hiff (k + 1) (by omega)).1 h1 k (by omega))
    rw [← hk2]
    exact htake
  · constructor
    · intro h
      have h6 : 6 < R.length := by rw [h, hlen]; omega
      exact (hiff 6 (by omega)).1 h6
    · intro h
      have h6 : 6 < R.length := (hiff 6 (by omega)).2 h
      have h7 : R.length = P.length := by omega
      rw [htake, h7, List.take_length]

theorem call_mem_iff (req : Request) (es : List Event) :
    Event.call req ∈ es ↔ req ∈ requestsOf es := by
  induction es with
  | nil => simp [requestsOf]
  | cons x es ih =>
    cases x with
    | out l => simp [requestsOf, ih]
    | call q => simp [requestsOf, ih]

theorem banner_not_mem_authErrorLines (e : JsError) :
    Event.out banner ∉ (authErrorLines e).map Event.out := by
  cases h : e.response <;> simp [authErrorLines, banner, h]

theorem banner_not_mem_authRun (isTestMode : Bool) (svc : Service) (hist : List Request)
    (a c : String) : Event.out banner ∉ (authRun isTestMode svc hist a c).events := by
  have hb := banner_not_mem_authErrorLines
  unfold authRun
  split
  · simp [banner]
  · split
    · rename_i e _
      simpa [banner] using hb e
    · split
      · simp [banner]
      · split
        · rename_i e _
          simpa [banner] using hb e
        · split <;> simp [banner]

theorem authRun_call_not_perf (isTestMode : Bool) (svc : Service) (hist : List Request)
    (a c : String) (req : Request) (hperf : endpoint req ∈ performanceEndpoints) :
    Event.call req ∉ (authRun isTestMode svc hist a c).events := by
  rw [call_mem_iff]
  intro hmem
  rcases authRun_requests isTestMode svc hist a c with h | h | ⟨t, h⟩
  · rw [h] at hmem; simp at hmem
  · rw [h] at hmem
    simp only [List.mem_singleton] at hmem
    subst hmem
    revert hperf
    decide
  · rw [h] at hmem
    simp only [List.mem_cons, List.mem_singleton, List.not_mem_nil, or_false] at hmem
    rcases hmem with rfl | rfl
    · revert hperf
      decide
    · revert hperf
      simp only [endpoint, csrfRequest]
      decide

/-! ## Lemmas on the decimal reading of a duration -/

theorem span_loop_at_sep (p : Char → Bool) (sep : Char) (hsep : p sep = false) :
    ∀ (xs ys acc : List Char), (∀ x ∈ xs, p x = true) →
      List.span.loop p (xs ++ sep :: ys) acc = (acc.reverse ++ xs, sep :: ys) := by
  intro xs
  induction xs with
  | nil => intro ys acc _; simp [List.span.loop, hsep]
  | cons x xs ih =>
    intro ys acc h
    have hx : p x = true := h x (by simp)
    have := ih ys (x :: acc) (fun y hy => h y (by simp [hy]))
    have e : List.span.loop p (x :: (xs ++ sep :: ys)) acc =
        List.span.loop p (xs ++ sep :: ys) (x :: acc) := by
      simp only [List.span.loop, hx]
    rw [List.cons_append, e, this]
    simp

theorem span_at_sep (p : Char → Bool) (sep : Char) (hsep : p sep = false)
    (xs ys : List Char) (h : ∀ x ∈ xs, p x = true) :
    (xs ++ sep :: ys).span p = (xs, sep :: ys) := by
  simp [List.span, span_loop_at_sep p sep hsep xs ys [] h]

theorem toDigits_small (n : Nat) (h : n < 1000) :
    (Nat.toDigits 10 n).length = if n < 10 then 1 else if n < 100 then 2 else 3 := by
  by_cases h1 : n < 10
  · have : n / 10 = 0 := by omega
    simp [Nat.toDigits, Nat.toDigitsCore, this, h1]
  · by_cases h2 : n < 100
    · obtain ⟨k, rfl⟩ : ∃ k, n = k + 1 := ⟨n - 1, by omega⟩
      have e1 : (k + 1) / 10 ≠ 0 := by omega
      have e2 : (k + 1) / 10 / 10 = 0 := by omega
      simp [Nat.toDigits, Nat.toDigitsCore, e1, e2, h1, h2]
    · obtain ⟨k, rfl⟩ : ∃ k, n = k + 2 := ⟨n - 2, by omega⟩
      have e1 : (k + 2) / 10 ≠ 0 := by omega
      have e2 : (k + 2) / 10 / 10 ≠ 0 := by omega
      have e3 : (k + 2) / 10 / 10 / 10 = 0 := by omega
      simp [Nat.toDigits, Nat.toDigitsCore, e1, e2, e3, h1, h2]

theorem toDigits_ne_nil (n : Nat) : Nat.toDigits 10 n ≠ [] := by
  intro h
  have h0 := digitsValue_toDigits n
  rw [h] at h0
  have hn : n = 0 := by simpa [digitsValue] using h0.symm
  subst hn
  revert h
  decide

/-- The decimal reading of the text `formatDuration` prints before the unit, for a duration
of at least one second: the remainder is read with as many decimals as it has digits. -/
theorem readDecimal_formatDuration (ms : Nat) (h : 1000 ≤ ms) :
    readDecimal (textBeforeUnit (formatDuration ms)) =
      some ⟨ms / 1000 * 10 ^ (Nat.toDigits 10 (ms % 1000)).length + ms % 1000,
        (Nat.toDigits 10 (ms % 1000)).length⟩ := by
  have h2 : ¬ ms < 1000 := by omega
  have htext : (textBeforeUnit (formatDuration ms)).data =
      Nat.toDigits 10 (ms / 1000) ++ '.' :: Nat.toDigits 10 (ms % 1000) := by
    simp only [textBeforeUnit, formatDuration, h2, if_false, String.data_append, repr_data]
    rw [List.dropLast_concat]
    simp
  have hw : ∀ x ∈ Nat.toDigits 10 (ms / 1000), (fun ch => ch != '.') x = true := by
    intro x hx
    have hd := toDigitsCore_isDigit _ _ _ (by simp) x hx
    have : x ≠ '.' := by
      rintro rfl
      exact absurd hd (by decide)
    simpa using this
  have hall : (Nat.toDigits 10 (ms / 1000) ++ Nat.toDigits 10 (ms % 1000)).all Char.isDigit
      = true := by
    rw [List.all_eq_true]
    intro x hx
    rcases List.mem_append.1 hx with hx | hx
    · exact toDigitsCore_isDigit _ _ _ (by simp) x hx
    · exact toDigitsCore_isDigit _ _ _ (by simp) x hx
  unfold readDecimal
  rw [htext, span_at_sep _ '.' (by decide) _ _ hw]
  simp only [toDigits_ne_nil, ne_eq, not_false_eq_true, hall, and_self, if_true,
    digitsValue_toDigits]

/-- The reading of a duration of at least one second is exact when the remainder is 0 or
has three digits, and only then. -/
theorem reading_exact_iff (ms : Nat) (h : 1000 ≤ ms) :
    ∃ d, readDecimal (textBeforeUnit (formatDuration ms)) = some d ∧
      (d.value = (ms : ℚ) / 1000 ↔ (ms % 1000 = 0 ∨ 100 ≤ ms % 1000)) := by
  refine ⟨_, readDecimal_formatDuration ms h, ?_⟩
  have hlen := toDigits_small (ms % 1000) (Nat.mod_lt _ (by decide))
  have hms : (ms : ℚ) = ((ms / 1000 : ℕ) : ℚ) * 1000 + ((ms % 1000 : ℕ) : ℚ) := by
    have : ms = ms / 1000 * 1000 + ms % 1000 := by omega
    exact_mod_cast this
  generalize ms / 1000 = q at *
  generalize ms % 1000 = r at *
  simp only [Decimal.value, hlen]
  by_cases h1 : r < 10
  · simp only [h1, if_true]
    rw [hms]
    push_cast
    constructor
    · intro he
      left
      have : (r : ℚ) = 0 := by
        field_simp at he
        linarith
      exact_mod_cast this
    · rintro (h0 | h0)
      · subst h0; field_simp
      · omega
  · by_cases h2 : r < 100
    · simp only [h1, h2, if_true, if_false]
      rw [hms]
      push_cast
      constructor
      · intro he
        left
        have : (r : ℚ) = 0 := by
          field_simp at he
          linarith
        exact_mod_cast this
      · rintro (h0 | h0)
        · omega
        · omega
    · simp only [h1, h2, if_false]
      rw [hms]
      push_cast
      constructor
      · intro _
        right
        omega
      · intro _
        field_simp
        norm_num

/-- With unauthenticated mode disabled, `authenticate` returns false in the three ways of
`AuthFails` and in no other. -/
theorem authRun_fails_iff (svc : Service) :
    (authRun false svc [] "" "").ok = false ↔ AuthFails svc := by
  constructor
  · intro h
    cases h1 : svc [] loginRequest with
    | rejected e => exact Or.inl ⟨e, h1⟩
    | resolved r =>
      cases h2 : truthyValue (r.data.bind (fun d => d.token)) with
      | none => exact Or.inr (Or.inl ⟨r, h1, h2⟩)
      | some t =>
        cases h3 : svc [loginRequest] (csrfRequest t) with
        | rejected e => exact Or.inr (Or.inr ⟨r, t, e, h1, h2, h3⟩)
        | resolved r2 =>
          exfalso
          cases h4 : truthyValue (r2.headers.bind (fun h => h.lookup "x-csrf-token")) <;>
            simp [authRun, h1, h2, h3, h4] at h
  · rintro (⟨e, h1⟩ | ⟨r, h1, h2⟩ | ⟨r, t, e, h1, h2, h3⟩)
    · simp [authRun, h1]
    · simp [authRun, h1, h2]
    · simp [authRun, h1, h2, h3]

/-! ## The claims on `formatDuration` -/

/-- C8, evaluated at 1005 ms: the script prints "1.5s", whose decimal reading is 3/2 seconds
and not 1005/1000 seconds. -/
theorem formatDuration_1005_reads_wrong :
    formatDuration 1005 = "1.5s" ∧
    readDecimal (textBeforeUnit (formatDuration 1005)) = some ⟨15, 1⟩ ∧
    (⟨15, 1⟩ : Decimal).value = 3 / 2 ∧
    (⟨15, 1⟩ : Decimal).value ≠ (1005 : ℚ) / 1000 := by
  refine ⟨by decide, by decide, ?_, ?_⟩ <;> norm_num [Decimal.value]

/-- C2: in unauthenticated (test) mode, for every service and whatever the session tokens
and `needCsrf`: `authenticate` returns true, issues no request and leaves both tokens
unchanged, and every request `runTests` issues is one of the performance-test requests
(never login or csrf) whose headers are Content-Type alone, so without Authorization and
without X-CSRF-TOKEN. -/
theorem testMode_sends_no_credentials (svc : Service) (w : World) (needCsrf : Bool) :
    (authenticate true svc w).1 = .ok true ∧
    (authenticate true svc w).2.requests = w.requests ∧
    (authenticate true svc w).2.authToken = w.authToken ∧
    (authenticate true svc w).2.csrfToken = w.csrfToken ∧
    createAuthHeaders true w.authToken w.csrfToken needCsrf =
      [("Content-Type", "application/json")] ∧
    ∃ issued, (run true svc w).requests = w.requests ++ issued ∧
      ∀ req ∈ issued,
        req.headers = [("Content-Type", "application/json")] ∧
        req.headers.lookup "Authorization" = none ∧
        req.headers.lookup "X-CSRF-TOKEN" = none ∧
        endpoint req ∈ performanceEndpoints ∧
        req.url ≠ loginRequest.url ∧ req.url ≠ (csrfRequest w.authToken).url := by
  have hA : authRun true svc w.requests w.authToken w.csrfToken =
      ⟨true, [.out ⟨.blue, "测试模式：跳过认证步骤"⟩], w.authToken, w.csrfToken⟩ := rfl
  refine ⟨?_, ?_, ?_, ?_, rfl, ?_⟩
  · rw [authenticate_eq, hA]
  · rw [authenticate_eq, hA]; simp [World.requests, requestsOf]
  · rw [authenticate_eq, hA]
  · rw [authenticate_eq, hA]
  · refine ⟨_, by rw [requests_run, hA]; simp only [requestsOf, List.append_nil,
      Bool.or_true, if_true]; rfl, ?_⟩
    intro req hreq
    have hmem := mem_requestsOf_stepsRun _ _ _ _ hreq
    obtain ⟨hep, hh⟩ := mem_perfRequests true w.authToken w.csrfToken req hmem
    have hhead : req.headers = [("Content-Type", "application/json")] := by
      rcases hh with ⟨-, -, h⟩ | ⟨-, -, h⟩ <;> rw [h] <;> rfl
    refine ⟨hhead, by rw [hhead]; rfl, by rw [hhead]; rfl, hep, ?_, ?_⟩
    · intro hu
      have : (req.method, loginRequest.url) ∈ performanceEndpoints := by
        rw [← hu]; exact hep
      revert this
      cases req.method <;> decide
    · intro hu
      have : (req.method, (csrfRequest "").url) ∈ performanceEndpoints := by
        have h2 : (csrfRequest "").url = (csrfRequest w.authToken).url := rfl
        rw [h2, ← hu]; exact hep
      revert this
      cases req.method <;> decide

theorem testMode_sends_no_credentials_witness :
    (authenticate true unreachableService World.initial).1 = .ok true ∧
    createAuthHeaders true "" "" true = [("Content-Type", "application/json")] :=
  ⟨(testMode_sends_no_credentials unreachableService World.initial true).1,
    (testMode_sends_no_credentials unreachableService World.initial true).2.2.2.2.1⟩

/-- C7: with unauthenticated mode disabled, for all session tokens and every `needCsrf`,
`createAuthHeaders(needCsrf)` has Content-Type application/json, has Authorization equal to
"Bearer " followed by the access token exactly when that token is not empty, and has
X-CSRF-TOKEN equal to the anti-forgery token exactly when `needCsrf` holds and that token is
not empty; so in `runTests` a request with an X-CSRF-TOKEN header is one of the three
state-changing requests, and no GET request has one. -/
theorem csrf_header_only_on_writes (svc : Service) (authToken csrfToken : String)
    (needCsrf : Bool) :
    (createAuthHeaders false authToken csrfToken needCsrf).lookup "Content-Type" =
      some "application/json" ∧
    ((createAuthHeaders false authToken csrfToken needCsrf).lookup "Authorization" =
      some ("Bearer " ++ authToken) ↔ authToken ≠ "") ∧
    (authToken = "" →
      (createAuthHeaders false authToken csrfToken needCsrf).lookup "Authorization" = none) ∧
    ((createAuthHeaders false authToken csrfToken needCsrf).lookup "X-CSRF-TOKEN" =
      some csrfToken ↔ (needCsrf = true ∧ csrfToken ≠ "")) ∧
    (¬ (needCsrf = true ∧ csrfToken ≠ "") →
      (createAuthHeaders false authToken csrfToken needCsrf).lookup "X-CSRF-TOKEN" = none) ∧
    ∀ req ∈ (run false svc ⟨authToken, csrfToken, []⟩).requests,
      (req.headers.lookup "X-CSRF-TOKEN" ≠ none → endpoint req ∈ writeEndpoints) ∧
      (req.method = .GET → req.headers.lookup "X-CSRF-TOKEN" = none) := by
  obtain ⟨h1, h2, h3⟩ := createAuthHeaders_lookup authToken csrfToken needCsrf
  refine ⟨h1, ?_, ?_, ?_, ?_, ?_⟩
  · rw [h2]; by_cases ha : authToken = "" <;> simp [ha]
  · intro ha; rw [h2]; simp [ha]
  · rw [h3]; by_cases hc : (needCsrf = true ∧ csrfToken ≠ "") <;> simp [hc]
  · intro hc; rw [h3]; simp only [hc, if_false]
  · intro req hreq
    rw [requests_run] at hreq
    simp only [World.requests, requestsOf, List.nil_append, Bool.or_false,
      List.mem_append] at hreq
    rcases hreq with hreq | hreq
    · have hnone : req.headers.lookup "X-CSRF-TOKEN" = none := by
        rcases authRun_requests false svc [] authToken csrfToken with h | h | ⟨t, h⟩
        · rw [h] at hreq; simp at hreq
        · rw [h] at hreq
          simp only [List.mem_singleton] at hreq
          subst hreq; rfl
        · rw [h] at hreq
          simp only [List.mem_cons, List.mem_singleton, List.not_mem_nil, or_false] at hreq
          rcases hreq with rfl | rfl
          · rfl
          · simp [csrfRequest, List.lookup]
      exact ⟨fun h => absurd hnone h, fun _ => hnone⟩
    · split at hreq
      · have hmem := mem_requestsOf_stepsRun _ _ _ _ hreq
        obtain ⟨-, hh⟩ := mem_perfRequests false _ _ req hmem
        rcases hh with ⟨hw, hm, -⟩ | ⟨-, hm, hh⟩
        · exact ⟨fun _ => hw, fun hg => absurd hg hm⟩
        · have hnone : req.headers.lookup "X-CSRF-TOKEN" = none := by
            rw [hh, (createAuthHeaders_lookup _ _ false).2.2]
            simp
          exact ⟨fun h => absurd hnone h, fun _ => hnone⟩
      · simp at hreq

theorem csrf_header_only_on_writes_witness :
    (createAuthHeaders false "jwt" "csrf" true).lookup "X-CSRF-TOKEN" = some "csrf" ∧
    (createAuthHeaders false "jwt" "csrf" false).lookup "X-CSRF-TOKEN" = none ∧
    (createAuthHeaders false "" "csrf" true).lookup "Authorization" = none :=
  ⟨(csrf_header_only_on_writes okService "jwt" "csrf" true).2.2.2.1.2 (by decide),
    (csrf_header_only_on_writes okService "jwt" "csrf" false).2.2.2.2.1 (by decide),
    (csrf_header_only_on_writes okService "" "csrf" true).2.2.1 rfl⟩

/-- C3: with unauthenticated mode disabled, if authentication fails (the login call throws,
the login response has no token, or the anti-forgery call throws), then for every service
`runTests` issues no request after the failing authentication call: its requests are the
login call alone or the login call and the anti-forgery call, and none of the seven
performance-test endpoints is requested. When the login call throws, as it does when the base
URL cannot be reached, the requests of the whole run are exactly the one POST /auth/login.
These three ways are the only ones in which `authenticate` returns false. -/
theorem failed_authentication_stops_run (svc : Service) (h : AuthFails svc) :
    (authenticate false svc World.initial).1 = .ok false ∧
    perfIssued false svc = [] ∧
    (run false svc World.initial).requests = (afterAuth false svc).requests ∧
    ((run false svc World.initial).requests = [loginRequest] ∨
      ∃ t, (run false svc World.initial).requests = [loginRequest, csrfRequest t]) ∧
    (∀ req ∈ (run false svc World.initial).requests, endpoint req ∉ performanceEndpoints) ∧
    ((∃ e, svc [] loginRequest = .rejected e) →
      (run false svc World.initial).requests = [loginRequest]) ∧
    ∀ svc2 : Service, (authenticate false svc2 World.initial).1 = .ok false → AuthFails svc2 := by
  have hok : (authRun false svc [] "" "").ok = false := (authRun_fails_iff svc).2 h
  have hreq : (run false svc World.initial).requests =
      requestsOf (authRun false svc [] "" "").events := by
    rw [requests_run]
    simp [World.initial, World.requests, requestsOf, hok]
  have hshape : requestsOf (authRun false svc [] "" "").events = [loginRequest] ∨
      ∃ t, requestsOf (authRun false svc [] "" "").events = [loginRequest, csrfRequest t] := by
    rcases h with ⟨e, h1⟩ | ⟨r, h1, h2⟩ | ⟨r, t, e, h1, h2, h3⟩
    · left; simp [authRun, h1, requestsOf]
    · left; simp [authRun, h1, h2, requestsOf]
    · right; exact ⟨t, by simp [authRun, h1, h2, h3, requestsOf]⟩
  refine ⟨by rw [authenticate_initial_ok, hok], perfIssued_nil svc hok, ?_, ?_, ?_, ?_, ?_⟩
  · rw [hreq, afterAuth_eq]; rfl
  · rw [hreq]; exact hshape
  · intro req hmem
    rw [hreq] at hmem
    rcases hshape with h1 | ⟨t, h1⟩
    · rw [h1] at hmem
      simp only [List.mem_singleton] at hmem
      subst hmem
      decide
    · rw [h1] at hmem
      simp only [List.mem_cons, List.mem_singleton, List.not_mem_nil, or_false] at hmem
      rcases hmem with rfl | rfl
      · decide
      · simp only [endpoint, csrfRequest]
        decide
  · rintro ⟨e, h1⟩
    rw [hreq]
    simp [authRun, h1, requestsOf]
  · intro svc2 h2
    rw [authenticate_initial_ok] at h2
    exact (authRun_fails_iff svc2).1 (by simpa using h2)

theorem failed_authentication_stops_run_witness :
    AuthFails unreachableService ∧
    (run false unreachableService World.initial).requests = [loginRequest] :=
  ⟨Or.inl ⟨_, rfl⟩,
    (failed_authentication_stops_run unreachableService (Or.inl ⟨_, rfl⟩)).2.2.2.2.2.1 ⟨_, rfl⟩⟩

/-- C5: with unauthenticated mode disabled, if login returns a non-empty token and the
anti-forgery call succeeds without an x-csrf-token header, then `authenticate` returns true
after printing the warning, the run goes on to the clear-data request, and every write
request (DELETE clear-data, POST generate-data, POST novel-create-test) it sends has
Authorization equal to "Bearer " followed by the login token and no X-CSRF-TOKEN header. -/
theorem missing_csrf_token_is_soft (svc : Service) (r r2 : Response) (token : String)
    (hlogin : svc [] loginRequest = .resolved r)
    (htoken : truthyValue (r.data.bind (fun d => d.token)) = some token)
    (hcsrf : svc [loginRequest] (csrfRequest token) = .resolved r2)
    (hnone : truthyValue (r2.headers.bind (fun h => h.lookup "x-csrf-token")) = none) :
    (authenticate false svc World.initial).1 = .ok true ∧
    (afterAuth false svc).authToken = token ∧ (afterAuth false svc).csrfToken = "" ∧
    Event.out ⟨.yellow, "! 未能获取CSRF令牌，将尝试继续测试"⟩ ∈
      (run false svc World.initial).trace ∧
    (run false svc World.initial).requests.take 3 =
      [loginRequest, csrfRequest token,
        { method := .DELETE, url := clearDataUrl, body := .absent,
          headers := [("Content-Type", "application/json"),
            ("Authorization", "Bearer " ++ token)] }] ∧
    ∀ req ∈ (run false svc World.initial).requests, endpoint req ∈ writeEndpoints →
      req.headers =
        [("Content-Type", "application/json"), ("Authorization", "Bearer " ++ token)] ∧
      req.headers.lookup "Authorization" = some ("Bearer " ++ token) ∧
      req.headers.lookup "X-CSRF-TOKEN" = none := by
  have hne : token ≠ "" := (truthyValue_some _ _ htoken).2
  have hA : authRun false svc [] "" "" =
      ⟨true, [.out ⟨.blue, "正在获取认证令牌..."⟩, .call loginRequest,
        .out ⟨.green, "✓ 成功获取JWT令牌"⟩, .call (csrfRequest token),
        .out ⟨.yellow, "! 未能获取CSRF令牌，将尝试继续测试"⟩], token, ""⟩ := by
    simp [authRun, hlogin, htoken, hcsrf, hnone]
  have hhead : createAuthHeaders false token "" true =
      [("Content-Type", "application/json"), ("Authorization", "Bearer " ++ token)] := by
    simp [createAuthHeaders, hne]
  have hreq : (run false svc World.initial).requests =
      loginRequest :: csrfRequest token ::
        requestsOf (stepsRun svc [loginRequest, csrfRequest token]
          (perfSteps false token "")).1 := by
    rw [requests_run]
    simp [World.initial, World.requests, requestsOf, hA]
  refine ⟨by rw [authenticate_initial_ok, hA], by rw [afterAuth_eq, hA],
    by rw [afterAuth_eq, hA], ?_, ?_, ?_⟩
  · rw [run_eq]
    simp [World.initial, World.requests, requestsOf, runTrace, hA]
  · obtain ⟨s, ss, hs, hsr⟩ := perfSteps_cons false token ""
    obtain ⟨t, ht⟩ := requestsOf_stepsRun_cons svc [loginRequest, csrfRequest token] s ss
    rw [hreq, hs, ht, hsr, hhead]
    simp only [List.take_succ_cons, List.take_zero]
  · intro req hmem hw
    rw [hreq] at hmem
    simp only [List.mem_cons] at hmem
    have key : req.headers =
        [("Content-Type", "application/json"), ("Authorization", "Bearer " ++ token)] := by
      rcases hmem with rfl | rfl | hmem
      · exact absurd hw (by decide)
      · exact absurd hw (by simp only [endpoint, csrfRequest]; decide)
      · have hm := mem_requestsOf_stepsRun _ _ _ _ hmem
        obtain ⟨-, hh⟩ := mem_perfRequests false token "" req hm
        rcases hh with ⟨-, -, h⟩ | ⟨h, -, -⟩
        · rw [h, hhead]
        · exact absurd hw h
    refine ⟨key, ?_, ?_⟩
    · rw [key]; simp [List.lookup]
    · rw [key]; simp [List.lookup]

theorem missing_csrf_token_is_soft_witness :
    (authenticate false noCsrfService World.initial).1 = .ok true ∧
    (run false noCsrfService World.initial).requests.take 3 =
      [loginRequest, csrfRequest "jwt",
        { method := .DELETE, url := clearDataUrl, body := .absent,
          headers := [("Content-Type", "application/json"),
            ("Authorization", "Bearer " ++ "jwt")] }] :=
  ⟨(missing_csrf_token_is_soft noCsrfService _ _ "jwt" rfl (by decide) rfl (by decide)).1,
    (missing_csrf_token_is_soft noCsrfService _ _ "jwt" rfl (by decide) rfl
      (by decide)).2.2.2.2.1⟩

/-- C4, as the script has it: with unauthenticated mode disabled, when every call returns a
success response with a body and login returns a token, `runTests` makes exactly 9 network
calls, in the order of section 6 of the specification (login, csrf, clear-data,
generate-data, stats, novel-query-test, scene-query-test, novel-create-test,
server-status), prints one result block for each of the seven performance-test calls and
ends with the success banner; in unauthenticated mode it makes the seven performance-test
calls alone. -/
theorem all_succeed_nine_calls (svc : Service) (h : AllSucceed svc) :
    (run false svc World.initial).requests.map endpoint = allEndpoints ∧
    (run false svc World.initial).requests.length = 9 ∧
    (run false svc World.initial).output.count blockOpener = 7 ∧
    (∃ init, (run false svc World.initial).output = init ++ [banner]) ∧
    (run true svc World.initial).requests.map endpoint = performanceEndpoints ∧
    (run true svc World.initial).output.count blockOpener = 7 := by
  have hsvc : ∀ hist req, ∃ r p, svc hist req = .resolved r ∧ r.data = some p := by
    intro hist req
    obtain ⟨r, p, h1, h2, -⟩ := h hist req
    exact ⟨r, p, h1, h2⟩
  obtain ⟨r, p, hr, hp, ht⟩ := h [] loginRequest
  obtain ⟨t, ht⟩ := ht rfl
  obtain ⟨r2, p2, hr2, -, -⟩ := h [loginRequest] (csrfRequest t)
  have htok : truthyValue (r.data.bind (fun d => d.token)) = some t := by
    rw [hp]; exact ht
  have hA : ∃ c l, l.color ≠ .cyan ∧ authRun false svc [] "" "" =
      ⟨true, [.out ⟨.blue, "正在获取认证令牌..."⟩, .call loginRequest,
        .out ⟨.green, "✓ 成功获取JWT令牌"⟩, .call (csrfRequest t), .out l], t, c⟩ := by
    cases hc : truthyValue (r2.headers.bind (fun h => h.lookup "x-csrf-token")) with
    | none =>
      exact ⟨"", ⟨.yellow, "! 未能获取CSRF令牌，将尝试继续测试"⟩, by simp,
        by simp [authRun, hr, htok, hr2, hc]⟩
    | some c =>
      exact ⟨c, ⟨.green, "✓ 成功获取CSRF令牌"⟩, by simp, by simp [authRun, hr, htok, hr2, hc]⟩
  obtain ⟨c, l, hl, hA⟩ := hA
  have hl2 : ¬ (l = blockOpener) := fun hh => hl (by rw [hh]; rfl)
  obtain ⟨s1, s2, s3, init, s4⟩ := stepsRun_all_complete svc (perfSteps false t c)
    (perfSteps_regular false t c) hsvc [loginRequest, csrfRequest t]
  obtain ⟨u1, u2, u3, -⟩ := stepsRun_all_complete svc (perfSteps true "" "")
    (perfSteps_regular true "" "") hsvc []
  have hreq : (run false svc World.initial).requests =
      loginRequest :: csrfRequest t :: perfRequests false t c := by
    rw [requests_run]
    simp [World.initial, World.requests, requestsOf, hA, s2, perfRequests]
  have hout : (run false svc World.initial).output =
      ⟨.blue, "开始AI小说助手系统性能测试..."⟩ :: modeLine false ::
        ⟨.blue, "正在获取认证令牌..."⟩ :: ⟨.green, "✓ 成功获取JWT令牌"⟩ :: l ::
          outputOf (stepsRun svc [loginRequest, csrfRequest t] (perfSteps false t c)).1 := by
    rw [output_run]
    simp [World.initial, World.output, World.requests, requestsOf, outputOf, runTrace, hA,
      stepsTrace, s1]
  have hreqT : (run true svc World.initial).requests = perfRequests true "" "" := by
    rw [requests_run]
    simp [World.initial, World.requests, requestsOf, authRun, u2, perfRequests]
  have houtT : (run true svc World.initial).output =
      ⟨.blue, "开始AI小说助手系统性能测试..."⟩ :: modeLine true ::
        ⟨.blue, "测试模式：跳过认证步骤"⟩ ::
          outputOf (stepsRun svc [] (perfSteps true "" "")).1 := by
    rw [output_run]
    simp [World.initial, World.output, World.requests, requestsOf, outputOf, runTrace, authRun,
      stepsTrace, u1]
  refine ⟨?_, ?_, ?_, ?_, ?_, ?_⟩
  · rw [hreq]; rfl
  · rw [hreq]; rfl
  · have hl3 : ¬ (l = { color := Color.cyan, text := "\n===================================" }) :=
      hl2
    rw [hout]
    simp only [List.count_cons, s3]
    simp [blockOpener, modeLine, hl3]
    rfl
  · rw [hout, s4]
    exact ⟨⟨.blue, "开始AI小说助手系统性能测试..."⟩ :: modeLine false ::
      ⟨.blue, "正在获取认证令牌..."⟩ :: ⟨.green, "✓ 成功获取JWT令牌"⟩ :: l :: init, rfl⟩
  · rw [hreqT]; rfl
  · rw [houtT]
    simp only [List.count_cons, u3]
    simp [blockOpener, modeLine]
    rfl

theorem all_succeed_nine_calls_witness :
    AllSucceed okService ∧ (run false okService World.initial).requests.length = 9 :=
  ⟨fun _ _ => ⟨_, _, rfl, rfl, fun _ => ⟨"jwt", by decide⟩⟩,
    (all_succeed_nine_calls okService
      (fun _ _ => ⟨_, _, rfl, rfl, fun _ => ⟨"jwt", by decide⟩⟩)).2.1⟩

/-- C4 as stated fails: on a service where every step succeeds the run makes 9 network
calls, not 8 (and 7 in unauthenticated mode), and prints 7 result blocks, not one per call;
and on a service where every call returns a success response and login returns a token, but
the bodies after login are null, the run makes 3 calls. -/
theorem all_succeed_not_eight_calls :
    AllSucceed okService ∧
    (run false okService World.initial).requests.length ≠ 8 ∧
    (run true okService World.initial).requests.length ≠ 8 ∧
    (run false okService World.initial).output.count blockOpener ≠
      (run false okService World.initial).requests.length ∧
    (∀ hist req, ∃ r, nullAfterLoginService hist req = .resolved r) ∧
    (run false nullAfterLoginService World.initial).requests.length = 3 := by
  refine ⟨fun _ _ => ⟨_, _, rfl, rfl, fun _ => ⟨"jwt", by decide⟩⟩, by decide, by decide,
    by decide, ?_, by decide⟩
  intro hist req
  by_cases h : req.url = loginRequest.url
  · exact ⟨_, by simp only [nullAfterLoginService, h, if_true]; rfl⟩
  · exact ⟨_, by simp only [nullAfterLoginService, h, if_false]; rfl⟩

/-- C6, as the script has it: after successful authentication (or in unauthenticated mode),
for every service, the performance-test requests `runTests` issues are an initial segment of
the fixed sequence DELETE clear-data, POST generate-data, GET stats, GET novel-query-test,
GET scene-query-test, POST novel-create-test, GET server-status; no endpoint is requested
twice; if an issued call fails or resolves with a null body, it is the last one issued; and
the full sequence is issued if and only if each of the first six calls resolves with a body
that is not null. -/
theorem performance_calls_stop_at_first_failure (isTestMode : Bool) (svc : Service)
    (hauth : (authenticate isTestMode svc World.initial).1 = .ok true) :
    (run isTestMode svc World.initial).requests =
      (afterAuth isTestMode svc).requests ++ perfIssued isTestMode svc ∧
    perfIssued isTestMode svc <+:
      perfRequests isTestMode (afterAuth isTestMode svc).authToken
        (afterAuth isTestMode svc).csrfToken ∧
    ((perfIssued isTestMode svc).map endpoint).Nodup ∧
    (∀ k, k < (perfIssued isTestMode svc).length →
      ¬ CallCompletes svc (afterAuth isTestMode svc).requests
        (perfRequests isTestMode (afterAuth isTestMode svc).authToken
          (afterAuth isTestMode svc).csrfToken) k →
      perfIssued isTestMode svc =
        (perfRequests isTestMode (afterAuth isTestMode svc).authToken
          (afterAuth isTestMode svc).csrfToken).take (k + 1)) ∧
    (∀ k req e, k < (perfIssued isTestMode svc).length →
      (perfRequests isTestMode (afterAuth isTestMode svc).authToken
        (afterAuth isTestMode svc).csrfToken)[k]? = some req →
      svc ((afterAuth isTestMode svc).requests ++
        (perfRequests isTestMode (afterAuth isTestMode svc).authToken
          (afterAuth isTestMode svc).csrfToken).take k) req = .rejected e →
      perfIssued isTestMode svc =
        (perfRequests isTestMode (afterAuth isTestMode svc).authToken
          (afterAuth isTestMode svc).csrfToken).take (k + 1)) ∧
    (perfIssued isTestMode svc =
        perfRequests isTestMode (afterAuth isTestMode svc).authToken
          (afterAuth isTestMode svc).csrfToken ↔
      ∀ k < 6, CallCompletes svc (afterAuth isTestMode svc).requests
        (perfRequests isTestMode (afterAuth isTestMode svc).authToken
          (afterAuth isTestMode svc).csrfToken) k) := by
  have hok : (authRun isTestMode svc [] "" "").ok = true := by
    rw [authenticate_initial_ok] at hauth
    simpa using hauth
  have hok2 : ((authRun isTestMode svc [] "" "").ok || isTestMode) = true := by simp [hok]
  have hI := perfIssued_eq isTestMode svc hok2
  have hbase : (afterAuth isTestMode svc).requests =
      requestsOf (authRun isTestMode svc [] "" "").events := by
    rw [afterAuth_eq]; rfl
  have ha : (afterAuth isTestMode svc).authToken = (authRun isTestMode svc [] "" "").authToken := by
    rw [afterAuth_eq]
  have hc : (afterAuth isTestMode svc).csrfToken = (authRun isTestMode svc [] "" "").csrfToken := by
    rw [afterAuth_eq]
  rw [hbase, ha, hc, hI]
  have hpre := requestsOf_stepsRun_isPrefix svc
    (perfSteps isTestMode (authRun isTestMode svc [] "" "").authToken
      (authRun isTestMode svc [] "" "").csrfToken)
    (requestsOf (authRun isTestMode svc [] "" "").events)
  have hiff := stepsRun_length_iff svc
    (perfSteps isTestMode (authRun isTestMode svc [] "" "").authToken
      (authRun isTestMode svc [] "" "").csrfToken)
    (perfSteps_regular isTestMode _ _)
    (requestsOf (authRun isTestMode svc [] "" "").events)
  obtain ⟨f1, f2⟩ := issued_facts _ _ _ hpre (perfRequests_length isTestMode _ _) hiff
  refine ⟨?_, hpre, ?_, f1, ?_, f2⟩
  · rw [requests_run]
    simp [World.initial, World.requests, requestsOf, hok]
  · obtain ⟨t, ht⟩ := hpre
    have hnd : (performanceEndpoints).Nodup := by decide
    rw [← perfRequests_map_endpoint isTestMode (authRun isTestMode svc [] "" "").authToken
      (authRun isTestMode svc [] "" "").csrfToken, perfRequests, ← ht, List.map_append] at hnd
    exact (List.nodup_append.1 hnd).1
  · intro k req e hk hget hrej
    refine f1 k hk ?_
    rintro ⟨req2, r, p, h1, h2, -⟩
    rw [perfRequests] at hget
    rw [hget] at h1
    cases h1
    rw [perfRequests, h2] at hrej
    cases hrej

theorem performance_calls_stop_at_first_failure_witness :
    (authenticate true statsDownService World.initial).1 = .ok true ∧
    perfIssued true statsDownService = (perfRequests true "" "").take 3 :=
  ⟨rfl,
    (performance_calls_stop_at_first_failure true statsDownService rfl).2.2.2.2.1 2
      { method := .GET, url := statsUrl, body := .absent,
        headers := [("Content-Type", "application/json")] }
      { message := "Request failed with status code 500",
        response := some { status := 500, data := "\"boom\"" } }
      (by decide) (by decide) rfl⟩

/-- C6 as stated fails: on a service whose first six performance-test calls all succeed, the
sixth with a null body, the six calls are issued and the seventh (server-status) is not. -/
theorem six_calls_succeed_seventh_not_issued :
    (authenticate true nullCreateService World.initial).1 = .ok true ∧
    (perfIssued true nullCreateService).length = 6 ∧
    (∀ k < 6, CallResolves nullCreateService (afterAuth true nullCreateService).requests
      (perfRequests true "" "") k) ∧
    perfIssued true nullCreateService ≠
      perfRequests true (afterAuth true nullCreateService).authToken
        (afterAuth true nullCreateService).csrfToken := by
  refine ⟨rfl, by decide, ?_, by decide⟩
  intro k hk
  interval_cases k <;> exact ⟨_, _, rfl, rfl⟩

/-- C9: when a performance-test call of `runTests` fails (its promise rejects), what the run
does after that call is exactly this: it prints the failure header, then the status-code
line and the serialised body line if the error carries a response (and not the raw message),
or else the raw error message; nothing is printed or requested after that, and the success
banner is printed nowhere in the run. -/
theorem failed_call_is_reported (isTestMode : Bool) (svc : Service) (pre : List Event)
    (req : Request) (rest : List Event) (e : JsError)
    (htrace : (run isTestMode svc World.initial).trace = pre ++ Event.call req :: rest)
    (hperf : endpoint req ∈ performanceEndpoints)
    (hfail : svc (requestsOf pre) req = .rejected e) :
    rest = Event.out ⟨.red, "\n✗ 测试过程中出错:"⟩ ::
      (match e.response with
        | some response =>
          [Event.out ⟨.red, "状态码: " ++ toString response.status⟩,
           Event.out ⟨.red, "错误信息: " ++ response.data⟩]
        | none => [Event.out ⟨.red, e.message⟩]) ∧
    Event.out banner ∉ (run isTestMode svc World.initial).trace := by
  have htr : (run isTestMode svc World.initial).trace =
      (Event.out ⟨.blue, "开始AI小说助手系统性能测试..."⟩ :: Event.out (modeLine isTestMode) ::
        (authRun isTestMode svc [] "" "").events) ++
      (if (authRun isTestMode svc [] "" "").ok || isTestMode then
        stepsTrace svc (requestsOf (authRun isTestMode svc [] "" "").events)
          (perfSteps isTestMode (authRun isTestMode svc [] "" "").authToken
            (authRun isTestMode svc [] "" "").csrfToken)
      else [Event.out ⟨.red, "认证失败，无法继续测试"⟩]) := by
    rw [run_eq]
    simp [World.initial, World.requests, requestsOf, runTrace]
  have hnot : Event.call req ∉
      (Event.out ⟨.blue, "开始AI小说助手系统性能测试..."⟩ :: Event.out (modeLine isTestMode) ::
        (authRun isTestMode svc [] "" "").events) := by
    simp only [List.mem_cons, not_or]
    exact ⟨by simp, by simp, authRun_call_not_perf isTestMode svc [] "" "" req hperf⟩
  rw [htr] at htrace ⊢
  obtain ⟨pre2, hpre, hsteps⟩ := append_eq_of_not_mem _ _ _ _ _ htrace hnot
  split at hsteps
  · subst hpre
    have hfail2 : svc (requestsOf (authRun isTestMode svc [] "" "").events ++ requestsOf pre2)
        req = .rejected e := by
      simpa [requestsOf] using hfail
    obtain ⟨h1, h2⟩ := stepsTrace_after_rejected svc _ (perfSteps_regular isTestMode _ _)
      _ pre2 req rest e hsteps hfail2
    constructor
    · rw [h1]
      cases hr : e.response <;> simp [handlerLines, hr]
    · rename_i hok
      simp only [hok, if_true, List.mem_append, List.mem_cons, not_or]
      exact ⟨⟨by simp [banner], by simp [banner, modeLine],
        banner_not_mem_authRun isTestMode svc [] "" ""⟩, h2⟩
  · have : Event.call req ∈ [Event.out ⟨.red, "认证失败，无法继续测试"⟩] := by
      rw [hsteps]; simp
    simp at this

theorem failed_call_is_reported_witness :
    (run true statsDownService World.initial).trace.drop 17 =
      [Event.out ⟨.red, "\n✗ 测试过程中出错:"⟩, Event.out ⟨.red, "状态码: 500"⟩,
       Event.out ⟨.red, "错误信息: \"boom\""⟩] :=
  (failed_call_is_reported true statsDownService
    ((run true statsDownService World.initial).trace.take 16)
    { method := .GET, url := statsUrl, body := .absent,
      headers := [("Content-Type", "application/json")] }
    ((run true statsDownService World.initial).trace.drop 17)
    { message := "Request failed with status code 500",
      response := some { status := 500, data := "\"boom\"" } }
    (by decide) (by decide) rfl).1

end PerfScript
